import Mathlib

/-!
# FLIR Ax5 radiometric conversion routines: a shallow embedding

This development embeds `src/main.c`, `src/utilities.c` and `src/utilities-config.h`
of the FLIR Ax5 conversion demo.

Modelling conventions.

* A C `double` is an element of a field `α`. The definitions are generic in `α`, so
  they evaluate on `ℚ`; the theorems about the formula instantiate `α := ℝ`.
* The `<math.h>` functions the code calls (`pow`, `log`) and the constant `M_E` are
  the fields of `MathLib α`. Over `ℝ` they are instantiated with the real power,
  the natural logarithm and `Real.exp 1`.
* A `double` that may be `NAN` only matters for the count override, which is an
  `Option α`: `none` is `NAN` (`kCountValueIndicatingNotSetOverride`).
* A `double *` is a map `Nat → α` from index to stored value; a store is
  `Function.update`.
* `UxHwDoubleUniformDist(low, high)` is a call into the external distribution
  source. Every textual call of it in `main.c` is a `DrawSite`; a `Sampler α` gives
  the value each call site returns for its bounds. Inside one evaluation every call
  site is executed exactly once, so this does not depend on the order in which C
  evaluates the operands of an expression.
-/

namespace FLIRAx5

/-! ## `utilities-config.h` -/

/-- The functions and the constant of the C mathematics library used by `main.c`. -/
structure MathLib (α : Type) where
  /-- The function `pow(x, y)`. -/
  pow : α → α → α
  /-- The function `log(x)`. -/
  log : α → α
  /-- The constant `M_E`. -/
  M_E : α

/-- The textual calls of `UxHwDoubleUniformDist` reached from the loop body of `main`:
one in `setInputDistributionsViaUxHwCall` and one for each occurrence of a
distribution-valued configuration constant in `calculateSensorOutput`, named after
the local variable whose initialiser contains the occurrence. -/
inductive DrawSite where
  | sensorCounts
  | K1_Tau
  | K1_Emiss
  | K1_TransmissionExtOptics
  | r1_EmissNumerator
  | r1_EmissDenominator
  | r1_B
  | r1_TRefl
  | r1_F
  | r2_TauNumerator
  | r2_Emiss
  | r2_TauDenominator
  | r2_B
  | r2_TAtmC
  | r2_F
  | r3_TransmissionExtOpticsNumerator
  | r3_Emiss
  | r3_Tau
  | r3_TransmissionExtOpticsDenominator
  | r3_B
  | r3_F
  | signal_J0
  | signal_J1
  | calibratedValue_B
  | calibratedValue_F
  deriving DecidableEq, Repr, Fintype

/-- The uncertain physical parameters: the configuration constants that expand to a
call of `UxHwDoubleUniformDist`, and the sensor counts. -/
inductive Parameter where
  | counts
  | Emiss
  | TRefl
  | TAtmC
  | Tau
  | TransmissionExtOptics
  | B
  | F
  | J1
  | J0
  deriving DecidableEq, Repr, Fintype

/-- The parameter whose configuration constant is expanded at a call site. -/
def DrawSite.parameter : DrawSite → Parameter
  | .sensorCounts => .counts
  | .K1_Tau => .Tau
  | .K1_Emiss => .Emiss
  | .K1_TransmissionExtOptics => .TransmissionExtOptics
  | .r1_EmissNumerator => .Emiss
  | .r1_EmissDenominator => .Emiss
  | .r1_B => .B
  | .r1_TRefl => .TRefl
  | .r1_F => .F
  | .r2_TauNumerator => .Tau
  | .r2_Emiss => .Emiss
  | .r2_TauDenominator => .Tau
  | .r2_B => .B
  | .r2_TAtmC => .TAtmC
  | .r2_F => .F
  | .r3_TransmissionExtOpticsNumerator => .TransmissionExtOptics
  | .r3_Emiss => .Emiss
  | .r3_Tau => .Tau
  | .r3_TransmissionExtOpticsDenominator => .TransmissionExtOptics
  | .r3_B => .B
  | .r3_F => .F
  | .signal_J0 => .J0
  | .signal_J1 => .J1
  | .calibratedValue_B => .B
  | .calibratedValue_F => .F

/-- Whether the call site lies in the body of `calculateSensorOutput` (the remaining
one lies in `setInputDistributionsViaUxHwCall`). -/
def DrawSite.inCalculateSensorOutput : DrawSite → Bool
  | .sensorCounts => false
  | _ => true

/-- The distribution source: the value returned by the call
`UxHwDoubleUniformDist(low, high)` made at a call site. -/
abbrev Sampler (α : Type) := DrawSite → α → α → α

section Config

variable {α : Type} [Field α]

/-- The constant `kAbsoluteZeroKelvinInCelsius`. -/
def kAbsoluteZeroKelvinInCelsius : α := 273.15

/-- The expansion of `kFLIRobjectParameterEmiss` at call site `s`. -/
def kFLIRobjectParameterEmiss (ux : Sampler α) (s : DrawSite) : α :=
  ux s (1.0 - 0.05) (1.0 + 0.05)

/-- The expansion of `kFLIRobjectParameterTRefl` at call site `s`. -/
def kFLIRobjectParameterTRefl (ux : Sampler α) (s : DrawSite) : α :=
  ux s (21.85 - 0.005) (21.85 + 0.005)

/-- The expansion of `kFLIRatmosphericAttenuationParameterTAtmC` at call site `s`. -/
def kFLIRatmosphericAttenuationParameterTAtmC (ux : Sampler α) (s : DrawSite) : α :=
  ux s (21.85 - 0.005) (21.85 + 0.005)

/-- The expansion of `kFLIRatmosphericAttenuationParameterTAtm` at call site `s`. -/
def kFLIRatmosphericAttenuationParameterTAtm (ux : Sampler α) (s : DrawSite) : α :=
  kFLIRatmosphericAttenuationParameterTAtmC ux s + kAbsoluteZeroKelvinInCelsius

/-- The expansion of `kFLIRatmosphericAttenuationParameterTau` at call site `s`. -/
def kFLIRatmosphericAttenuationParameterTau (ux : Sampler α) (s : DrawSite) : α :=
  ux s (1.0 - 0.05) (1.0 + 0.05)

/-- The constant `kFLIRexternalOpticsParameterTExtOptics`. -/
def kFLIRexternalOpticsParameterTExtOptics : α := 20

/-- The expansion of `kFLIRexternalOpticsParameterTransmissionExtOptics` at call
site `s`. -/
def kFLIRexternalOpticsParameterTransmissionExtOptics (ux : Sampler α) (s : DrawSite) : α :=
  ux s (1.0 - 0.05) (1.0 + 0.05)

/-- The constant `kFLIRcameraAx5CalibrationParameterR`. -/
def kFLIRcameraAx5CalibrationParameterR : α := 16556

/-- The expansion of `kFLIRcameraAx5CalibrationParameterB` at call site `s`. -/
def kFLIRcameraAx5CalibrationParameterB (ux : Sampler α) (s : DrawSite) : α :=
  ux s (1428.0 - 0.05) (1428.0 + 0.05)

/-- The expansion of `kFLIRcameraAx5CalibrationParameterF` at call site `s`. -/
def kFLIRcameraAx5CalibrationParameterF (ux : Sampler α) (s : DrawSite) : α :=
  ux s (1.0 - 0.05) (1.0 + 0.05)

/-- The expansion of `kFLIRcameraAx5CalibrationParameterJ1` at call site `s`. -/
def kFLIRcameraAx5CalibrationParameterJ1 (ux : Sampler α) (s : DrawSite) : α :=
  ux s (22.5916 - 0.00005) (22.5916 + 0.00005)

/-- The expansion of `kFLIRcameraAx5CalibrationParameterJ0` at call site `s`. -/
def kFLIRcameraAx5CalibrationParameterJ0 (ux : Sampler α) (s : DrawSite) : α :=
  ux s (89.796 - 0.0005) (89.796 + 0.0005)

/-- The constant `kDefaultInputDistributionIndexSensorCountsDistLow`. -/
def kDefaultInputDistributionIndexSensorCountsDistLow : α := 30000

/-- The constant `kDefaultInputDistributionIndexSensorCountsDistHigh`. -/
def kDefaultInputDistributionIndexSensorCountsDistHigh : α := 30100

end Config

/-- The enumerator `kInputDistributionIndexSensorCounts`. -/
def kInputDistributionIndexSensorCounts : Nat := 0

/-- The enumerator `kInputDistributionIndexMax`. -/
def kInputDistributionIndexMax : Nat := 1

/-- The enumerator `kOutputDistributionIndexCalibratedSensorOutput`. -/
def kOutputDistributionIndexCalibratedSensorOutput : Nat := 0

/-- The enumerator `kOutputDistributionIndexMax`. -/
def kOutputDistributionIndexMax : Nat := 1

/-! ## Command line arguments (`utilities.h`, `common.h`) -/

/-- The fields of `CommonCommandLineArguments` that the sources under study read or
write. -/
structure CommonCommandLineArguments where
  isHelpEnabled : Bool
  isInputFromFileEnabled : Bool
  isWriteToFileEnabled : Bool
  isMonteCarloMode : Bool
  isVerbose : Bool
  isOutputSelected : Bool
  isBenchmarkingMode : Bool
  isTimingEnabled : Bool
  isOutputJSONMode : Bool
  outputSelect : Nat
  numberOfMonteCarloIterations : Nat
  deriving DecidableEq, Repr

/-- The structure `CommandLineArguments`; the override is `none` when it is `NAN`. -/
structure CommandLineArguments (α : Type) where
  common : CommonCommandLineArguments
  countValueReadFromArgvToOverrideDefaultDistribution : Option α
  deriving DecidableEq, Repr

/-- The function `setDefaultCommandLineArguments`: the zero-initialised common part
and the override set to `kCountValueIndicatingNotSetOverride`. -/
def setDefaultCommandLineArguments {α : Type} : CommandLineArguments α :=
  ⟨⟨false, false, false, false, false, false, false, false, false, 0, 0⟩, none⟩

/-! ## `main.c` -/

section Main

variable {α : Type} [Field α]

/-- The function `setInputDistributionsViaUxHwCall`. -/
def setInputDistributionsViaUxHwCall (ux : Sampler α) (inputDistributions : Nat → α) :
    Nat → α :=
  Function.update inputDistributions kInputDistributionIndexSensorCounts
    (ux .sensorCounts kDefaultInputDistributionIndexSensorCountsDistLow
      kDefaultInputDistributionIndexSensorCountsDistHigh)

/-- The local variables of `calculateSensorOutput` when it returns. -/
structure SensorOutputLocals (α : Type) where
  K1 : α
  K2 : α
  r1 : α
  r2 : α
  r3 : α
  signal : α
  calibratedValue : α
  counts : α

/-- The body of `calculateSensorOutput` up to the assignment of `calibratedValue`. -/
def calculateSensorOutputLocals (m : MathLib α) (arguments : CommandLineArguments α)
    (ux : Sampler α) (inputDistributions : Nat → α) : SensorOutputLocals α :=
  let counts : α :=
    match arguments.countValueReadFromArgvToOverrideDefaultDistribution with
    | none => inputDistributions kInputDistributionIndexSensorCounts
    | some override => override
  let K1 : α :=
    1 /
      (kFLIRatmosphericAttenuationParameterTau ux .K1_Tau *
        kFLIRobjectParameterEmiss ux .K1_Emiss *
        kFLIRexternalOpticsParameterTransmissionExtOptics ux .K1_TransmissionExtOptics)
  let r1 : α :=
    ((1 - kFLIRobjectParameterEmiss ux .r1_EmissNumerator) /
        kFLIRobjectParameterEmiss ux .r1_EmissDenominator) *
      (kFLIRcameraAx5CalibrationParameterR /
        (m.pow m.M_E
            (kFLIRcameraAx5CalibrationParameterB ux .r1_B /
              kFLIRobjectParameterTRefl ux .r1_TRefl) -
          kFLIRcameraAx5CalibrationParameterF ux .r1_F))
  let r2 : α :=
    ((1 - kFLIRatmosphericAttenuationParameterTau ux .r2_TauNumerator) /
        (kFLIRobjectParameterEmiss ux .r2_Emiss *
          kFLIRatmosphericAttenuationParameterTau ux .r2_TauDenominator)) *
      (kFLIRcameraAx5CalibrationParameterR /
        (m.pow m.M_E
            (kFLIRcameraAx5CalibrationParameterB ux .r2_B /
              kFLIRatmosphericAttenuationParameterTAtm ux .r2_TAtmC) -
          kFLIRcameraAx5CalibrationParameterF ux .r2_F))
  let r3 : α :=
    ((1 - kFLIRexternalOpticsParameterTransmissionExtOptics ux
            .r3_TransmissionExtOpticsNumerator) /
        (kFLIRobjectParameterEmiss ux .r3_Emiss *
          kFLIRatmosphericAttenuationParameterTau ux .r3_Tau *
          kFLIRexternalOpticsParameterTransmissionExtOptics ux
            .r3_TransmissionExtOpticsDenominator)) *
      (kFLIRcameraAx5CalibrationParameterR /
        (m.pow m.M_E
            (kFLIRcameraAx5CalibrationParameterB ux .r3_B /
              kFLIRexternalOpticsParameterTExtOptics) -
          kFLIRcameraAx5CalibrationParameterF ux .r3_F))
  let K2 : α := r1 + r2 + r3
  let signal : α :=
    (counts - kFLIRcameraAx5CalibrationParameterJ0 ux .signal_J0) /
      kFLIRcameraAx5CalibrationParameterJ1 ux .signal_J1
  let calibratedValue : α :=
    (kFLIRcameraAx5CalibrationParameterB ux .calibratedValue_B /
        m.log
          (kFLIRcameraAx5CalibrationParameterR / ((K1 * signal) - K2) +
            kFLIRcameraAx5CalibrationParameterF ux .calibratedValue_F)) -
      kAbsoluteZeroKelvinInCelsius
  ⟨K1, K2, r1, r2, r3, signal, calibratedValue, counts⟩

/-- The function `calculateSensorOutput`: the returned value and the array
`outputDistributions` after the call. -/
def calculateSensorOutput (m : MathLib α) (arguments : CommandLineArguments α)
    (ux : Sampler α) (inputDistributions outputDistributions : Nat → α) :
    α × (Nat → α) :=
  let calibratedValue : α :=
    (calculateSensorOutputLocals m arguments ux inputDistributions).calibratedValue
  (calibratedValue,
    Function.update outputDistributions kOutputDistributionIndexCalibratedSensorOutput
      calibratedValue)

end Main

section MainLoop

variable {α : Type} [Field α]

/-- The structure `MeanAndVariance`. -/
structure MeanAndVariance (α : Type) where
  mean : α
  variance : α

/-- The calls and stores performed by the loop of `main`, in program order. -/
inductive LoopEvent (α : Type) where
  /-- The call `setInputDistributionsViaUxHwCall(inputDistributions)` of iteration `i`. -/
  | setInputDistributions (i : Nat)
  /-- The call of `calculateSensorOutput` of iteration `i` and the value it returned. -/
  | calculateSensorOutput (i : Nat) (returned : α)
  /-- The store `monteCarloOutputSamples[i] = value`. -/
  | storeSample (i : Nat) (value : α)

/-- The variables of `main` that the loop reads or writes, with the record of the
calls and stores made so far. `monteCarloOutputSamples` is `none` when it is `NULL`. -/
structure MainState (α : Type) where
  inputDistributions : Nat → α
  outputDistributions : Nat → α
  calibratedSensorOutput : α
  monteCarloOutputSamples : Option (Nat → α)
  trace : List (LoopEvent α)

/-- One iteration of the loop of `main`, for the loop counter `i`; `ux i` is the
distribution source during that iteration. -/
def mainLoopBody (m : MathLib α) (arguments : CommandLineArguments α)
    (ux : Nat → Sampler α) (i : Nat) (st : MainState α) : MainState α :=
  let inputDistributions : Nat → α :=
    setInputDistributionsViaUxHwCall (ux i) st.inputDistributions
  let result : α × (Nat → α) :=
    calculateSensorOutput m arguments (ux i) inputDistributions st.outputDistributions
  if arguments.common.isMonteCarloMode then
    ⟨inputDistributions, result.2, result.1,
      st.monteCarloOutputSamples.map (fun samples => Function.update samples i result.1),
      st.trace ++
        [.setInputDistributions i, .calculateSensorOutput i result.1,
          .storeSample i result.1]⟩
  else
    ⟨inputDistributions, result.2, result.1, st.monteCarloOutputSamples,
      st.trace ++ [.setInputDistributions i, .calculateSensorOutput i result.1]⟩

/-- The loop `for (size_t i = 0; i < numberOfMonteCarloIterations; i++)` of `main`. -/
def mainLoop (m : MathLib α) (arguments : CommandLineArguments α)
    (ux : Nat → Sampler α) (st : MainState α) : MainState α :=
  (List.range arguments.common.numberOfMonteCarloIterations).foldl
    (fun st i => mainLoopBody m arguments ux i st) st

/-- The part of `main` from the allocation of the sample buffer to the reduction.
`heap` is the content of the block returned by `checkedMalloc`; the other three
arguments are the initial contents of the uninitialised locals.
`calculateMeanAndVarianceOfDoubleSamples` lives in the common library and is a
parameter. -/
def mainCompute (m : MathLib α)
    (calculateMeanAndVarianceOfDoubleSamples : Option (Nat → α) → Nat → MeanAndVariance α)
    (arguments : CommandLineArguments α) (ux : Nat → Sampler α)
    (heap inputDistributions outputDistributions : Nat → α) (calibratedSensorOutput : α) :
    MainState α :=
  let monteCarloOutputSamples : Option (Nat → α) :=
    if arguments.common.isMonteCarloMode then some heap else none
  let st : MainState α :=
    mainLoop m arguments ux
      ⟨inputDistributions, outputDistributions, calibratedSensorOutput,
        monteCarloOutputSamples, []⟩
  if arguments.common.isMonteCarloMode then
    ⟨st.inputDistributions, st.outputDistributions,
      (calculateMeanAndVarianceOfDoubleSamples st.monteCarloOutputSamples
        arguments.common.numberOfMonteCarloIterations).mean,
      st.monteCarloOutputSamples, st.trace⟩
  else
    st

/-- The value `calculateSensorOutput` returns in iteration `i` of the loop: the
evaluation on the input distributions just set from the distribution source `ux i`. -/
def iterationResult (m : MathLib α) (arguments : CommandLineArguments α)
    (ux : Nat → Sampler α) (i : Nat) : α :=
  (calculateSensorOutput m arguments (ux i)
    (setInputDistributionsViaUxHwCall (ux i) (fun _ => 0)) (fun _ => 0)).1

/-- The calls and stores of iteration `i`, in order. -/
def iterationEvents (m : MathLib α) (arguments : CommandLineArguments α)
    (ux : Nat → Sampler α) (i : Nat) : List (LoopEvent α) :=
  if arguments.common.isMonteCarloMode then
    [.setInputDistributions i, .calculateSensorOutput i (iterationResult m arguments ux i),
      .storeSample i (iterationResult m arguments ux i)]
  else
    [.setInputDistributions i, .calculateSensorOutput i (iterationResult m arguments ux i)]

end MainLoop

/-! ## `utilities.c` -/

/-- The type `CommonConstantReturnType`. -/
inductive CommonConstantReturnType where
  | kCommonConstantReturnTypeSuccess
  | kCommonConstantReturnTypeError
  deriving DecidableEq, Repr

/-- The messages `getCommandLineArguments` writes to the standard error stream. -/
inductive Diagnostic where
  | argumentsPointerIsNull
  | parsingFailed
  | usage
  | inputFromFileNotSupported
  | writeToFileNotSupportedInMonteCarloMode
  | verboseModeNotSupported
  | outputSelectGreaterThanMax (provided : Nat) (max : Nat)
  | selectSingleOutput
  | overrideMustBeRealNumber
  deriving DecidableEq, Repr

/-- What the call of `parseArgs` (common library) leaves behind: its return value,
the common arguments it wrote, and the two variables of the option table entry for
`-sp` / `--sensor-parameter`. -/
structure ParseArgsResult where
  returnValue : Int
  common : CommonCommandLineArguments
  sensorParameterArg : Option String
  sensorParameterArgFound : Bool
  deriving DecidableEq, Repr

/-- How a call of `getCommandLineArguments` ends: by `exit(status)` or by returning;
both carry the messages written. `arguments` is `none` for a `NULL` pointer. -/
inductive GetCommandLineArgumentsOutcome (α : Type) where
  | exited (status : Nat) (stderr : List Diagnostic)
  | returned (ret : CommonConstantReturnType) (arguments : Option (CommandLineArguments α))
      (stderr : List Diagnostic)
  deriving DecidableEq, Repr

/-- The constant `EXIT_SUCCESS`. -/
def EXIT_SUCCESS : Nat := 0

/-- The last block of `getCommandLineArguments` (handling of the demo-specific
option), reached when no earlier check returned. -/
def getCommandLineArgumentsSensorParameter {α : Type} (parsed : ParseArgsResult)
    (parseDoubleChecked : Option String → CommonConstantReturnType × Option α)
    (arguments : CommandLineArguments α) (stderr : List Diagnostic) :
    GetCommandLineArgumentsOutcome α :=
  if parsed.sensorParameterArgFound then
    let ret : CommonConstantReturnType × Option α :=
      parseDoubleChecked parsed.sensorParameterArg
    if ret.1 ≠ .kCommonConstantReturnTypeSuccess then
      .returned .kCommonConstantReturnTypeError (some ⟨arguments.common, none⟩)
        (stderr ++ [.overrideMustBeRealNumber, .usage])
    else
      .returned .kCommonConstantReturnTypeSuccess (some ⟨arguments.common, ret.2⟩) stderr
  else
    .returned .kCommonConstantReturnTypeSuccess (some arguments) stderr

/-- The function `getCommandLineArguments`. `parsed` is the effect of `parseArgs` on
the defaulted arguments; `parseDoubleChecked` (common library) yields its return
value and the number it stored, `none` being `NAN`. -/
def getCommandLineArguments {α : Type} (parsed : ParseArgsResult)
    (parseDoubleChecked : Option String → CommonConstantReturnType × Option α)
    (arguments : Option (CommandLineArguments α)) : GetCommandLineArgumentsOutcome α :=
  match arguments with
  | none => .returned .kCommonConstantReturnTypeError none [.argumentsPointerIsNull]
  | some _ =>
    let defaults : CommandLineArguments α := setDefaultCommandLineArguments
    let arguments : CommandLineArguments α :=
      ⟨parsed.common, defaults.countValueReadFromArgvToOverrideDefaultDistribution⟩
    if parsed.returnValue ≠ 0 then
      .returned .kCommonConstantReturnTypeError (some arguments) [.parsingFailed, .usage]
    else if arguments.common.isHelpEnabled then
      .exited EXIT_SUCCESS [.usage]
    else if arguments.common.isInputFromFileEnabled then
      .returned .kCommonConstantReturnTypeError (some arguments) [.inputFromFileNotSupported]
    else if arguments.common.isWriteToFileEnabled && arguments.common.isMonteCarloMode then
      .returned .kCommonConstantReturnTypeError (some arguments)
        [.writeToFileNotSupportedInMonteCarloMode]
    else
      let stderr : List Diagnostic :=
        if arguments.common.isVerbose then [.verboseModeNotSupported] else []
      let outputSelect : Nat :=
        if !arguments.common.isOutputSelected then
          kOutputDistributionIndexCalibratedSensorOutput
        else
          arguments.common.outputSelect
      let common : CommonCommandLineArguments :=
        ⟨arguments.common.isHelpEnabled, arguments.common.isInputFromFileEnabled,
          arguments.common.isWriteToFileEnabled, arguments.common.isMonteCarloMode,
          arguments.common.isVerbose, arguments.common.isOutputSelected,
          arguments.common.isBenchmarkingMode, arguments.common.isTimingEnabled,
          arguments.common.isOutputJSONMode, outputSelect,
          arguments.common.numberOfMonteCarloIterations⟩
      let arguments : CommandLineArguments α :=
        ⟨common, arguments.countValueReadFromArgvToOverrideDefaultDistribution⟩
      if arguments.common.outputSelect > kOutputDistributionIndexMax then
        getCommandLineArgumentsSensorParameter parsed parseDoubleChecked arguments
          (stderr ++
            [.outputSelectGreaterThanMax arguments.common.outputSelect
              kOutputDistributionIndexMax])
      else if arguments.common.outputSelect = kOutputDistributionIndexMax then
        if arguments.common.isBenchmarkingMode || arguments.common.isMonteCarloMode then
          .returned .kCommonConstantReturnTypeError (some arguments)
            (stderr ++ [.selectSingleOutput])
        else
          getCommandLineArgumentsSensorParameter parsed parseDoubleChecked arguments stderr
      else
        getCommandLineArgumentsSensorParameter parsed parseDoubleChecked arguments stderr

/-- The six probabilities printed by `printCalibratedValueAndProbabilities`, in the
order of the source, after the calibrated value itself. -/
structure ProbabilityReport (α : Type) where
  calibratedSensorOutput : α
  smaller1 : α
  smaller2 : α
  smaller5 : α
  greater1 : α
  greater2 : α
  greater5 : α

/-- The function `printCalibratedValueAndProbabilities`: the numbers it prints.
`UxHwDoubleProbabilityGT` is the tail-probability query of the distribution source. -/
def printCalibratedValueAndProbabilities {α : Type} [Field α]
    (UxHwDoubleProbabilityGT : α → α → α) (calibratedSensorOutput : α) :
    ProbabilityReport α :=
  ⟨calibratedSensorOutput,
    1 - UxHwDoubleProbabilityGT calibratedSensorOutput (calibratedSensorOutput * (1 - 0.01)),
    1 - UxHwDoubleProbabilityGT calibratedSensorOutput (calibratedSensorOutput * (1 - 0.02)),
    1 - UxHwDoubleProbabilityGT calibratedSensorOutput (calibratedSensorOutput * (1 - 0.05)),
    UxHwDoubleProbabilityGT calibratedSensorOutput (1.01 * calibratedSensorOutput),
    UxHwDoubleProbabilityGT calibratedSensorOutput (1.02 * calibratedSensorOutput),
    UxHwDoubleProbabilityGT calibratedSensorOutput (1.05 * calibratedSensorOutput)⟩

/-- The type `JSONVariableType`, of which the code uses one enumerator. -/
inductive JSONVariableType where
  | kJSONVariableTypeDouble
  deriving DecidableEq, Repr

/-- The structure `JSONVariable`; `P` is the type of pointers to `double`. -/
structure JSONVariable (P : Type) where
  variableSymbol : String
  variableDescription : String
  values : P
  type : JSONVariableType
  size : Nat
  deriving DecidableEq, Repr

/-- The function `printJSONFormattedOutput`: the array `variables` it hands to
`printJSONVariables`. The bound `kCommonConstantMaxCharsPerJSONVariableDescription`
of the common library is a parameter. -/
def printJSONFormattedOutput {α P : Type}
    (kCommonConstantMaxCharsPerJSONVariableDescription : Nat)
    (arguments : CommandLineArguments α) (outputVariable monteCarloOutputSamples : P)
    (variableDescription : String) : List (JSONVariable P) :=
  let pointerToOutputVariable : P :=
    if arguments.common.isMonteCarloMode then monteCarloOutputSamples else outputVariable
  [⟨"calibratedSensorOutput",
    variableDescription.take kCommonConstantMaxCharsPerJSONVariableDescription,
    pointerToOutputVariable, .kJSONVariableTypeDouble,
    arguments.common.numberOfMonteCarloIterations⟩]

/-! ## The calibration formula in the words of the specification -/

section Spec

variable {α : Type} [Field α]

/-- The calibration formula as the specification writes it, for one realized value
of each physical parameter; `exp` is the exponential `e^x` and `log` is `ln`. -/
def specCalibratedValue (exp log : α → α)
    (emiss tau transmissionExtOptics TRefl TAtm TExtOptics R B F J0 J1 counts : α) : α :=
  let K1 : α := 1 / (tau * emiss * transmissionExtOptics)
  let r1 : α := ((1 - emiss) / emiss) * R / (exp (B / TRefl) - F)
  let r2 : α := ((1 - tau) / (emiss * tau)) * R / (exp (B / TAtm) - F)
  let r3 : α :=
    ((1 - transmissionExtOptics) / (emiss * tau * transmissionExtOptics)) * R /
      (exp (B / TExtOptics) - F)
  let K2 : α := r1 + r2 + r3
  let signal : α := (counts - J0) / J1
  B / log (R / ((K1 * signal) - K2) + F) - 273.15

/-- A distribution source in which every call for one parameter returns the same
realized value `v p`, whatever the call site. -/
def singleRealization (v : Parameter → α) : Sampler α :=
  fun s _ _ => v s.parameter

/-- The nominal midpoint of the configured range of each parameter. -/
def nominalMidpoint : Parameter → α
  | .counts => 30050
  | .Emiss => 1
  | .TRefl => 21.85
  | .TAtmC => 21.85
  | .Tau => 1
  | .TransmissionExtOptics => 1
  | .B => 1428
  | .F => 1
  | .J1 => 22.5916
  | .J0 => 89.796

/-- A distribution source that stays inside the configured bounds and returns
different values for the two occurrences of `kFLIRobjectParameterEmiss` in the
initialiser of `r1`; every other call returns the nominal midpoint. -/
def splitEmissSampler : Sampler α :=
  fun s _ _ =>
    match s with
    | .r1_EmissNumerator => 0.95
    | .r1_EmissDenominator => 1.05
    | s => nominalMidpoint s.parameter

/-- The distribution source that returns the midpoint of the requested bounds. -/
def midpointSampler : Sampler α :=
  fun _ low high => (low + high) / 2

end Spec

/-! ## Inputs used to evaluate the definitions -/

/-- A tail-probability query that falls linearly in the threshold: one up to `90`,
zero from `110` on, and `(110 - threshold) / 20` in between. -/
def rampProbabilityGT {α : Type} [LinearOrderedField α] (_value threshold : α) : α :=
  if threshold ≤ 90 then 1 else if 110 ≤ threshold then 0 else (110 - threshold) / 20

/-- A successfully parsed command line with `-b` and no `-S`: benchmarking mode with
no output selected. -/
def benchmarkingWithoutSelection : ParseArgsResult :=
  ⟨0, ⟨false, false, false, false, false, false, true, false, false, 0, 1⟩, none, false⟩

/-- A successfully parsed command line with `-b -S 1`: benchmarking mode with the
output index `kOutputDistributionIndexMax` selected. -/
def benchmarkingWithAllOutputs : ParseArgsResult :=
  ⟨0, ⟨false, false, false, false, false, true, true, false, false, 1, 1⟩, none, false⟩

/-- A successfully parsed command line with `-M 10 -S 7`: Monte Carlo mode with an
output index above `kOutputDistributionIndexMax` selected. -/
def monteCarloWithOutOfRangeSelection : ParseArgsResult :=
  ⟨0, ⟨false, false, false, true, false, true, false, false, false, 7, 10⟩, none, false⟩

/-- A `parseDoubleChecked` that accepts nothing. -/
def parseDoubleCheckedNothing :
    Option String → CommonConstantReturnType × Option ℚ :=
  fun _ => (.kCommonConstantReturnTypeError, none)

/-- Arguments outside Monte Carlo mode whose iteration count is five. -/
def fiveIterationsWithoutMonteCarloMode : CommandLineArguments ℚ :=
  ⟨⟨false, false, false, false, false, false, false, false, true, 0, 5⟩, none⟩


/-! ## Theorems -/

section Formula

open Real

/-- C1. When every call of the distribution source for one parameter returns the
same realized value, `calculateSensorOutput` returns exactly the value of the
specified formula `B / ln(R / (K1*signal - K2) + F) - 273.15` (with `F` added to the
quotient), where `counts` is the override or else `inputDistributions[0]`, and it
stores the same value in `outputDistributions[0]`. -/
theorem calculateSensorOutput_eq_specCalibratedValue
    (arguments : CommandLineArguments ℝ) (ux : Sampler ℝ) (v : Parameter → ℝ)
    (inputDistributions outputDistributions : Nat → ℝ)
    (hux : ∀ s lo hi, ux s lo hi = v s.parameter) :
    (calculateSensorOutput ⟨fun x y => x ^ y, Real.log, Real.exp 1⟩ arguments ux
        inputDistributions outputDistributions).1 =
      specCalibratedValue Real.exp Real.log (v .Emiss) (v .Tau) (v .TransmissionExtOptics)
        (v .TRefl) (v .TAtmC + 273.15) 20 16556 (v .B) (v .F) (v .J0) (v .J1)
        (arguments.countValueReadFromArgvToOverrideDefaultDistribution.getD
          (inputDistributions 0)) ∧
    (calculateSensorOutput ⟨fun x y => x ^ y, Real.log, Real.exp 1⟩ arguments ux
        inputDistributions outputDistributions).2 0 =
      (calculateSensorOutput ⟨fun x y => x ^ y, Real.log, Real.exp 1⟩ arguments ux
        inputDistributions outputDistributions).1 := by
  refine ⟨?_, ?_⟩
  · simp only [calculateSensorOutput, calculateSensorOutputLocals, specCalibratedValue,
      kFLIRobjectParameterEmiss, kFLIRobjectParameterTRefl,
      kFLIRatmosphericAttenuationParameterTAtm, kFLIRatmosphericAttenuationParameterTAtmC,
      kFLIRatmosphericAttenuationParameterTau, kFLIRexternalOpticsParameterTExtOptics,
      kFLIRexternalOpticsParameterTransmissionExtOptics, kFLIRcameraAx5CalibrationParameterR,
      kFLIRcameraAx5CalibrationParameterB, kFLIRcameraAx5CalibrationParameterF,
      kFLIRcameraAx5CalibrationParameterJ1, kFLIRcameraAx5CalibrationParameterJ0,
      kAbsoluteZeroKelvinInCelsius, kInputDistributionIndexSensorCounts, hux,
      DrawSite.parameter, Real.exp_one_rpow, mul_div_assoc]
    cases arguments.countValueReadFromArgvToOverrideDefaultDistribution <;> rfl
  · simp [calculateSensorOutput, kOutputDistributionIndexCalibratedSensorOutput]

/-- Witness of C1 at the nominal midpoints. -/
theorem calculateSensorOutput_eq_specCalibratedValue_witness :
    (∀ s lo hi, singleRealization (nominalMidpoint : Parameter → ℝ) s lo hi =
        nominalMidpoint s.parameter) ∧
    ((calculateSensorOutput ⟨fun x y => x ^ y, Real.log, Real.exp 1⟩
        setDefaultCommandLineArguments (singleRealization nominalMidpoint)
        (fun _ => 30050) (fun _ => 0)).1 =
      specCalibratedValue Real.exp Real.log (nominalMidpoint .Emiss) (nominalMidpoint .Tau)
        (nominalMidpoint .TransmissionExtOptics) (nominalMidpoint .TRefl)
        (nominalMidpoint .TAtmC + 273.15) 20 16556 (nominalMidpoint .B) (nominalMidpoint .F)
        (nominalMidpoint .J0) (nominalMidpoint .J1)
        ((setDefaultCommandLineArguments :
            CommandLineArguments ℝ).countValueReadFromArgvToOverrideDefaultDistribution.getD
          ((fun _ => 30050 : Nat → ℝ) 0)) ∧
    (calculateSensorOutput ⟨fun x y => x ^ y, Real.log, Real.exp 1⟩
        setDefaultCommandLineArguments (singleRealization nominalMidpoint)
        (fun _ => 30050) (fun _ => 0)).2 0 =
      (calculateSensorOutput ⟨fun x y => x ^ y, Real.log, Real.exp 1⟩
        setDefaultCommandLineArguments (singleRealization nominalMidpoint)
        (fun _ => 30050) (fun _ => 0)).1) :=
  ⟨fun _ _ _ => rfl,
    calculateSensorOutput_eq_specCalibratedValue setDefaultCommandLineArguments
      (singleRealization nominalMidpoint) nominalMidpoint (fun _ => 30050) (fun _ => 0)
      (fun _ _ _ => rfl)⟩

/-- C2. One evaluation of `calculateSensorOutput` contains 24 calls of the
distribution source for 9 distinct uncertain parameters, and the two occurrences of
the emissivity in `(1 - emiss) / emiss` of `r1` are separate calls: for every
distribution source the numerator holds the value of one call and the denominator
the value of another, and at `splitEmissSampler` they are `0.95` and `1.05`. -/
theorem calculateSensorOutput_draws_per_occurrence :
    (Finset.univ.filter (fun s : DrawSite => s.inCalculateSensorOutput = true)).card = 24 ∧
    ((Finset.univ.filter (fun s : DrawSite => s.inCalculateSensorOutput = true)).image
        DrawSite.parameter).card = 9 ∧
    (∀ (m : MathLib ℝ) (arguments : CommandLineArguments ℝ) (ux : Sampler ℝ)
        (inputDistributions : Nat → ℝ),
      (calculateSensorOutputLocals m arguments ux inputDistributions).r1 =
        ((1 - ux .r1_EmissNumerator (1.0 - 0.05) (1.0 + 0.05)) /
            ux .r1_EmissDenominator (1.0 - 0.05) (1.0 + 0.05)) *
          (16556 /
            (m.pow m.M_E
                (ux .r1_B (1428.0 - 0.05) (1428.0 + 0.05) /
                  ux .r1_TRefl (21.85 - 0.005) (21.85 + 0.005)) -
              ux .r1_F (1.0 - 0.05) (1.0 + 0.05)))) ∧
    (calculateSensorOutputLocals ⟨fun x y => x ^ y, Real.log, Real.exp 1⟩
        setDefaultCommandLineArguments (splitEmissSampler : Sampler ℝ) (fun _ => 30050)).r1 =
      ((1 - 0.95) / 1.05) * (16556 / (Real.exp (1428 / 21.85) - 1)) := by
  refine ⟨by decide, by decide, fun _ _ _ _ => rfl, ?_⟩
  simp [calculateSensorOutputLocals, splitEmissSampler, nominalMidpoint,
    kFLIRobjectParameterEmiss, kFLIRobjectParameterTRefl,
    kFLIRcameraAx5CalibrationParameterR, kFLIRcameraAx5CalibrationParameterB,
    kFLIRcameraAx5CalibrationParameterF, DrawSite.parameter, Real.exp_one_rpow]

/-- With emissivity and both transmissions equal to one, the radiance corrections
vanish whatever `pow` returns, and the result only depends on `B`, `F`, `J0`, `J1`
and `counts`. -/
theorem calculateSensorOutputLocals_unit_transmission (m : MathLib ℝ)
    (arguments : CommandLineArguments ℝ) (ux : Sampler ℝ) (v : Parameter → ℝ)
    (inputDistributions : Nat → ℝ)
    (hux : ∀ s lo hi, ux s lo hi = v s.parameter)
    (hEmiss : v .Emiss = 1) (hTau : v .Tau = 1) (hTrans : v .TransmissionExtOptics = 1) :
    (calculateSensorOutputLocals m arguments ux inputDistributions).K1 = 1 ∧
    (calculateSensorOutputLocals m arguments ux inputDistributions).r1 = 0 ∧
    (calculateSensorOutputLocals m arguments ux inputDistributions).r2 = 0 ∧
    (calculateSensorOutputLocals m arguments ux inputDistributions).r3 = 0 ∧
    (calculateSensorOutputLocals m arguments ux inputDistributions).K2 = 0 ∧
    (calculateSensorOutputLocals m arguments ux inputDistributions).calibratedValue =
      v .B /
          m.log
            (16556 * v .J1 /
                (arguments.countValueReadFromArgvToOverrideDefaultDistribution.getD
                    (inputDistributions 0) - v .J0) +
              v .F) -
        273.15 := by
  simp only [calculateSensorOutputLocals,
    kFLIRobjectParameterEmiss, kFLIRobjectParameterTRefl,
    kFLIRatmosphericAttenuationParameterTAtm, kFLIRatmosphericAttenuationParameterTAtmC,
    kFLIRatmosphericAttenuationParameterTau, kFLIRexternalOpticsParameterTExtOptics,
    kFLIRexternalOpticsParameterTransmissionExtOptics, kFLIRcameraAx5CalibrationParameterR,
    kFLIRcameraAx5CalibrationParameterB, kFLIRcameraAx5CalibrationParameterF,
    kFLIRcameraAx5CalibrationParameterJ1, kFLIRcameraAx5CalibrationParameterJ0,
    kAbsoluteZeroKelvinInCelsius, kInputDistributionIndexSensorCounts, hux,
    DrawSite.parameter, hEmiss, hTau, hTrans]
  refine ⟨by norm_num, by norm_num, by norm_num, by norm_num, by norm_num, ?_⟩
  cases arguments.countValueReadFromArgvToOverrideDefaultDistribution <;>
    simp [div_div_eq_mul_div]

/-- C4. For every distribution source that respects its bounds, the divisor of `B`
in `r1` is the value drawn for `kFLIRobjectParameterTRefl` itself, without the offset
`273.15`, so it lies in `[21.845, 21.855]` and below `294.995`; the divisor of `B` in
`r2` is the drawn Celsius value plus `273.15` and lies in `[294.995, 295.005]`. -/
theorem kFLIRobjectParameterTRefl_not_kelvin (m : MathLib ℝ)
    (arguments : CommandLineArguments ℝ) (ux : Sampler ℝ) (inputDistributions : Nat → ℝ)
    (hux : ∀ s lo hi, lo ≤ hi → lo ≤ ux s lo hi ∧ ux s lo hi ≤ hi) :
    (calculateSensorOutputLocals m arguments ux inputDistributions).r1 =
        ((1 - kFLIRobjectParameterEmiss ux .r1_EmissNumerator) /
            kFLIRobjectParameterEmiss ux .r1_EmissDenominator) *
          (kFLIRcameraAx5CalibrationParameterR /
            (m.pow m.M_E
                (kFLIRcameraAx5CalibrationParameterB ux .r1_B /
                  ux .r1_TRefl (21.85 - 0.005) (21.85 + 0.005)) -
              kFLIRcameraAx5CalibrationParameterF ux .r1_F)) ∧
    (calculateSensorOutputLocals m arguments ux inputDistributions).r2 =
        ((1 - kFLIRatmosphericAttenuationParameterTau ux .r2_TauNumerator) /
            (kFLIRobjectParameterEmiss ux .r2_Emiss *
              kFLIRatmosphericAttenuationParameterTau ux .r2_TauDenominator)) *
          (kFLIRcameraAx5CalibrationParameterR /
            (m.pow m.M_E
                (kFLIRcameraAx5CalibrationParameterB ux .r2_B /
                  (ux .r2_TAtmC (21.85 - 0.005) (21.85 + 0.005) + 273.15)) -
              kFLIRcameraAx5CalibrationParameterF ux .r2_F)) ∧
    21.845 ≤ kFLIRobjectParameterTRefl ux .r1_TRefl ∧
    kFLIRobjectParameterTRefl ux .r1_TRefl ≤ 21.855 ∧
    kFLIRobjectParameterTRefl ux .r1_TRefl < 294.995 ∧
    294.995 ≤ kFLIRatmosphericAttenuationParameterTAtm ux .r2_TAtmC ∧
    kFLIRatmosphericAttenuationParameterTAtm ux .r2_TAtmC ≤ 295.005 := by
  have h1 := hux .r1_TRefl (21.85 - 0.005) (21.85 + 0.005) (by norm_num)
  have h2 := hux .r2_TAtmC (21.85 - 0.005) (21.85 + 0.005) (by norm_num)
  refine ⟨rfl, rfl, ?_, ?_, ?_, ?_, ?_⟩ <;>
    simp only [kFLIRobjectParameterTRefl, kFLIRatmosphericAttenuationParameterTAtm,
      kFLIRatmosphericAttenuationParameterTAtmC, kAbsoluteZeroKelvinInCelsius] <;>
    linarith [h1.1, h1.2, h2.1, h2.2]

/-- Witness of C4 at the distribution source that returns the midpoint of its bounds. -/
theorem kFLIRobjectParameterTRefl_not_kelvin_witness :
    (∀ s lo hi, lo ≤ hi →
        lo ≤ (midpointSampler : Sampler ℝ) s lo hi ∧
          (midpointSampler : Sampler ℝ) s lo hi ≤ hi) ∧
    kFLIRobjectParameterTRefl (midpointSampler : Sampler ℝ) .r1_TRefl < 294.995 ∧
    kFLIRobjectParameterTRefl (midpointSampler : Sampler ℝ) .r1_TRefl = 21.85 :=
  ⟨fun _ lo hi h => by constructor <;> simp only [midpointSampler] <;> linarith,
    (kFLIRobjectParameterTRefl_not_kelvin ⟨fun x y => x ^ y, Real.log, Real.exp 1⟩
      setDefaultCommandLineArguments midpointSampler (fun _ => 30050)
      (fun _ lo hi h => by constructor <;> simp only [midpointSampler] <;> linarith)).2.2.2.2.1,
    by norm_num [kFLIRobjectParameterTRefl, midpointSampler]⟩

/-- C5. With emissivity and both transmissions equal to one and
`counts = J0 + J1 * R / (e^(B/T) - F)` for a temperature `T > 0`, `B > 0`, `J1 ≠ 0`
and `e^(B/T) > F`, `calculateSensorOutput` returns `T - 273.15`, which is not `T`. -/
theorem calculateSensorOutput_inverts_radiance_minus_offset
    (arguments : CommandLineArguments ℝ) (ux : Sampler ℝ) (v : Parameter → ℝ)
    (inputDistributions outputDistributions : Nat → ℝ) (T : ℝ)
    (hux : ∀ s lo hi, ux s lo hi = v s.parameter)
    (hEmiss : v .Emiss = 1) (hTau : v .Tau = 1) (hTrans : v .TransmissionExtOptics = 1)
    (_hT : 0 < T) (hB : 0 < v .B) (hJ1 : v .J1 ≠ 0) (hF : v .F < Real.exp (v .B / T))
    (hcounts : arguments.countValueReadFromArgvToOverrideDefaultDistribution.getD
        (inputDistributions 0) =
      v .J0 + v .J1 * (16556 / (Real.exp (v .B / T) - v .F))) :
    (calculateSensorOutput ⟨fun x y => x ^ y, Real.log, Real.exp 1⟩ arguments ux
        inputDistributions outputDistributions).1 = T - 273.15 ∧
    (calculateSensorOutput ⟨fun x y => x ^ y, Real.log, Real.exp 1⟩ arguments ux
        inputDistributions outputDistributions).1 ≠ T := by
  have hval :
      (calculateSensorOutput ⟨fun x y => x ^ y, Real.log, Real.exp 1⟩ arguments ux
        inputDistributions outputDistributions).1 = T - 273.15 := by
    have h := (calculateSensorOutputLocals_unit_transmission
      ⟨fun x y => x ^ y, Real.log, Real.exp 1⟩ arguments ux v inputDistributions hux
      hEmiss hTau hTrans).2.2.2.2.2
    simp only [calculateSensorOutput]
    rw [h, hcounts]
    have hD : Real.exp (v .B / T) - v .F ≠ 0 := by linarith
    have hq : 16556 * v .J1 /
        (v .J0 + v .J1 * (16556 / (Real.exp (v .B / T) - v .F)) - v .J0) + v .F =
        Real.exp (v .B / T) := by
      have hsub : v .J0 + v .J1 * (16556 / (Real.exp (v .B / T) - v .F)) - v .J0 =
          16556 * v .J1 / (Real.exp (v .B / T) - v .F) := by ring
      have hnum : (16556 : ℝ) * v .J1 ≠ 0 := mul_ne_zero (by norm_num) hJ1
      rw [hsub, div_div_cancel₀ hnum]
      ring
    rw [hq]
    show v .B / Real.log (Real.exp (v .B / T)) - 273.15 = T - 273.15
    rw [Real.log_exp, div_div_cancel₀ hB.ne.symm]
  refine ⟨hval, ?_⟩
  rw [hval]
  intro h
  linarith

/-- Witness of C5 at `T = 300` with the nominal calibration constants. -/
theorem calculateSensorOutput_inverts_radiance_minus_offset_witness :
    (0 : ℝ) < 300 ∧ (nominalMidpoint .F : ℝ) < Real.exp (nominalMidpoint .B / 300) ∧
    (calculateSensorOutput ⟨fun x y => x ^ y, Real.log, Real.exp 1⟩
        ⟨(setDefaultCommandLineArguments : CommandLineArguments ℝ).common,
          some (nominalMidpoint .J0 +
            nominalMidpoint .J1 *
              (16556 / (Real.exp (nominalMidpoint .B / 300) - nominalMidpoint .F)))⟩
        (singleRealization nominalMidpoint) (fun _ => 30050) (fun _ => 0)).1 =
      300 - 273.15 :=
  have hF : (nominalMidpoint .F : ℝ) < Real.exp (nominalMidpoint .B / 300) := by
    have h : (0 : ℝ) < nominalMidpoint .B / 300 := by norm_num [nominalMidpoint]
    have h1 := Real.one_lt_exp_iff.mpr h
    rw [show (nominalMidpoint .F : ℝ) = 1 from rfl]
    exact h1
  ⟨by norm_num, hF,
    (calculateSensorOutput_inverts_radiance_minus_offset
      ⟨(setDefaultCommandLineArguments : CommandLineArguments ℝ).common,
        some (nominalMidpoint .J0 +
          nominalMidpoint .J1 *
            (16556 / (Real.exp (nominalMidpoint .B / 300) - nominalMidpoint .F)))⟩
      (singleRealization nominalMidpoint) nominalMidpoint (fun _ => 30050) (fun _ => 0) 300
      (fun _ _ _ => rfl) rfl rfl rfl (by norm_num) (by norm_num [nominalMidpoint])
      (by norm_num [nominalMidpoint]) hF rfl).1⟩

/-- C6. With every parameter at a single value and emissivity and both
transmissions equal to one, `K1 = 1`, `r1 = r2 = r3 = K2 = 0` and the result is
`B / ln(R*J1/(counts - J0) + F) - 273.15`, whatever the values of the three
temperatures and of the exponentials computed from them; at the nominal midpoints
with `counts = 30050` the result is
`1428 / ln(16556*22.5916/29960.204 + 1) - 273.15`. -/
theorem calculateSensorOutput_unit_transmission (pow : ℝ → ℝ → ℝ) (e : ℝ)
    (arguments : CommandLineArguments ℝ) (ux : Sampler ℝ) (v : Parameter → ℝ)
    (inputDistributions outputDistributions : Nat → ℝ)
    (hux : ∀ s lo hi, ux s lo hi = v s.parameter)
    (hEmiss : v .Emiss = 1) (hTau : v .Tau = 1) (hTrans : v .TransmissionExtOptics = 1) :
    (calculateSensorOutputLocals ⟨pow, Real.log, e⟩ arguments ux inputDistributions).K1 = 1 ∧
    (calculateSensorOutputLocals ⟨pow, Real.log, e⟩ arguments ux inputDistributions).r1 = 0 ∧
    (calculateSensorOutputLocals ⟨pow, Real.log, e⟩ arguments ux inputDistributions).r2 = 0 ∧
    (calculateSensorOutputLocals ⟨pow, Real.log, e⟩ arguments ux inputDistributions).r3 = 0 ∧
    (calculateSensorOutputLocals ⟨pow, Real.log, e⟩ arguments ux inputDistributions).K2 = 0 ∧
    (calculateSensorOutput ⟨pow, Real.log, e⟩ arguments ux inputDistributions
        outputDistributions).1 =
      v .B /
          Real.log
            (kFLIRcameraAx5CalibrationParameterR * v .J1 /
                ((calculateSensorOutputLocals ⟨pow, Real.log, e⟩ arguments ux
                    inputDistributions).counts - v .J0) +
              v .F) -
        273.15 ∧
    (calculateSensorOutput ⟨pow, Real.log, e⟩ setDefaultCommandLineArguments
        (singleRealization nominalMidpoint) (fun _ => 30050) outputDistributions).1 =
      1428 / Real.log (16556 * 22.5916 / 29960.204 + 1) - 273.15 := by
  obtain ⟨h1, h2, h3, h4, h5, h6⟩ := calculateSensorOutputLocals_unit_transmission
    ⟨pow, Real.log, e⟩ arguments ux v inputDistributions hux hEmiss hTau hTrans
  refine ⟨h1, h2, h3, h4, h5, ?_, ?_⟩
  · simp only [calculateSensorOutput]
    rw [h6]
    cases harg : arguments.countValueReadFromArgvToOverrideDefaultDistribution <;>
      simp [calculateSensorOutputLocals, harg, kFLIRcameraAx5CalibrationParameterR,
        kInputDistributionIndexSensorCounts]
  · have h := (calculateSensorOutputLocals_unit_transmission ⟨pow, Real.log, e⟩
      setDefaultCommandLineArguments (singleRealization nominalMidpoint) nominalMidpoint
      (fun _ => 30050) (fun _ _ _ => rfl) rfl rfl rfl).2.2.2.2.2
    simp only [calculateSensorOutput]
    rw [h]
    norm_num [setDefaultCommandLineArguments, nominalMidpoint]

/-- Witness of C6 at the nominal midpoints. -/
theorem calculateSensorOutput_unit_transmission_witness :
    (∀ s lo hi, singleRealization (nominalMidpoint : Parameter → ℝ) s lo hi =
        nominalMidpoint s.parameter) ∧
    (nominalMidpoint .Emiss : ℝ) = 1 ∧ (nominalMidpoint .Tau : ℝ) = 1 ∧
    (nominalMidpoint .TransmissionExtOptics : ℝ) = 1 ∧
    (calculateSensorOutputLocals ⟨fun x y => x ^ y, Real.log, Real.exp 1⟩
        setDefaultCommandLineArguments (singleRealization nominalMidpoint)
        (fun _ => (30050 : ℝ))).K2 = 0 :=
  ⟨fun _ _ _ => rfl, rfl, rfl, rfl,
    (calculateSensorOutput_unit_transmission (fun x y => x ^ y) (Real.exp 1)
      setDefaultCommandLineArguments (singleRealization nominalMidpoint) nominalMidpoint
      (fun _ => 30050) (fun _ => 0) (fun _ _ _ => rfl) rfl rfl rfl).2.2.2.2.1⟩

end Formula

section Counts

variable {α : Type} [Field α]

/-- C3. If the override is not `NAN`, the `counts` used by `calculateSensorOutput` is
the override and the result is the same for any two `inputDistributions` arrays; if
the override is `NAN`, the `counts` used is `inputDistributions[0]`, which after
`setInputDistributionsViaUxHwCall` is the value the distribution source returned for
the bounds `(30000, 30100)`. -/
theorem calculateSensorOutput_counts_override (m : MathLib α)
    (common : CommonCommandLineArguments) (ux : Sampler α)
    (inputDistributions otherInputDistributions outputDistributions : Nat → α) :
    (∀ override : α,
      (calculateSensorOutputLocals m ⟨common, some override⟩ ux inputDistributions).counts =
          override ∧
        calculateSensorOutput m ⟨common, some override⟩ ux inputDistributions
            outputDistributions =
          calculateSensorOutput m ⟨common, some override⟩ ux otherInputDistributions
            outputDistributions) ∧
    (calculateSensorOutputLocals m ⟨common, none⟩ ux inputDistributions).counts =
      inputDistributions kInputDistributionIndexSensorCounts ∧
    (calculateSensorOutputLocals m ⟨common, none⟩ ux
        (setInputDistributionsViaUxHwCall ux inputDistributions)).counts =
      ux .sensorCounts 30000 30100 := by
  refine ⟨fun override => ⟨rfl, rfl⟩, rfl, ?_⟩
  simp [calculateSensorOutputLocals, setInputDistributionsViaUxHwCall,
    kDefaultInputDistributionIndexSensorCountsDistLow,
    kDefaultInputDistributionIndexSensorCountsDistHigh]

end Counts

section Loop

variable {α : Type} [Field α]

/-- The value returned by `calculateSensorOutput` right after
`setInputDistributionsViaUxHwCall` does not depend on the earlier contents of the two
arrays. -/
theorem calculateSensorOutput_after_setInputDistributions (m : MathLib α)
    (arguments : CommandLineArguments α) (ux : Nat → Sampler α) (i : Nat)
    (inputDistributions outputDistributions : Nat → α) :
    (calculateSensorOutput m arguments (ux i)
        (setInputDistributionsViaUxHwCall (ux i) inputDistributions)
        outputDistributions).1 = iterationResult m arguments ux i := by
  simp [iterationResult, calculateSensorOutput, calculateSensorOutputLocals,
    setInputDistributionsViaUxHwCall]

/-- The state after the first `n` iterations of the loop of `main`. -/
theorem mainLoop_first_iterations (m : MathLib α) (arguments : CommandLineArguments α)
    (ux : Nat → Sampler α) (st : MainState α) (n : Nat) :
    ((List.range n).foldl (fun st i => mainLoopBody m arguments ux i st) st).trace =
        st.trace ++ (List.range n).flatMap (iterationEvents m arguments ux) ∧
    ((List.range n).foldl
        (fun st i => mainLoopBody m arguments ux i st) st).monteCarloOutputSamples =
      if arguments.common.isMonteCarloMode then
        st.monteCarloOutputSamples.map
          (fun samples j => if j < n then iterationResult m arguments ux j else samples j)
      else
        st.monteCarloOutputSamples := by
  induction n with
  | zero =>
    refine ⟨by simp, ?_⟩
    simp only [List.range_zero, List.foldl_nil, Nat.not_lt_zero, if_false]
    cases st.monteCarloOutputSamples <;> simp
  | succ n ih =>
    obtain ⟨ihTrace, ihSamples⟩ := ih
    rw [List.range_succ, List.foldl_append, List.flatMap_append]
    simp only [List.foldl_cons, List.foldl_nil, List.flatMap_cons, List.flatMap_nil,
      List.append_nil]
    generalize List.foldl (fun st i => mainLoopBody m arguments ux i st) st (List.range n) =
      prev at ihTrace ihSamples
    by_cases hmc : arguments.common.isMonteCarloMode = true
    · simp only [hmc, if_true] at ihSamples
      simp only [mainLoopBody, hmc, if_true, ihTrace, ihSamples, iterationEvents,
        calculateSensorOutput_after_setInputDistributions, List.append_assoc, true_and,
        Option.map_map]
      congr 1
      funext samples j
      simp only [Function.comp]
      by_cases hj : j = n
      · subst hj
        simp
      · rw [Function.update_noteq hj]
        by_cases hlt : j < n
        · simp [hlt, Nat.lt_succ_of_lt hlt]
        · have : ¬ j < n + 1 := by omega
          simp [hlt, this]
    · simp only [hmc] at ihSamples
      simp [mainLoopBody, hmc, ihTrace, ihSamples, iterationEvents,
        calculateSensorOutput_after_setInputDistributions]

/-- C10. For every iteration count `N`, the loop of `main` performs exactly the `N`
steps `0, …, N-1` in order, each one a call of `setInputDistributionsViaUxHwCall`
immediately followed by the call of `calculateSensorOutput` (and, in Monte Carlo
mode, by the store of the returned value in slot `i`); in Monte Carlo mode the
buffer then holds the value of the `i`-th evaluation in every slot `i < N`, the rest
of the block is untouched, and this buffer with the count `N` is the argument of the
mean and variance reducer whose mean becomes the calibrated output. -/
theorem main_loop_samples_then_evaluates (m : MathLib α)
    (calculateMeanAndVarianceOfDoubleSamples : Option (Nat → α) → Nat → MeanAndVariance α)
    (common : CommonCommandLineArguments) (override : Option α) (ux : Nat → Sampler α)
    (heap inputDistributions outputDistributions : Nat → α) (calibratedSensorOutput : α) :
    (mainCompute m calculateMeanAndVarianceOfDoubleSamples ⟨common, override⟩ ux heap
        inputDistributions outputDistributions calibratedSensorOutput).trace =
      (List.range common.numberOfMonteCarloIterations).flatMap
        (fun i =>
          if common.isMonteCarloMode then
            [.setInputDistributions i,
              .calculateSensorOutput i (iterationResult m ⟨common, override⟩ ux i),
              .storeSample i (iterationResult m ⟨common, override⟩ ux i)]
          else
            [.setInputDistributions i,
              .calculateSensorOutput i (iterationResult m ⟨common, override⟩ ux i)]) ∧
    (∀ i, iterationResult m ⟨common, override⟩ ux i =
      (calculateSensorOutput m ⟨common, override⟩ (ux i)
        (setInputDistributionsViaUxHwCall (ux i) inputDistributions)
        outputDistributions).1) ∧
    (mainCompute m calculateMeanAndVarianceOfDoubleSamples ⟨common, override⟩ ux heap
        inputDistributions outputDistributions calibratedSensorOutput).monteCarloOutputSamples =
      (if common.isMonteCarloMode then
        some (fun i =>
          if i < common.numberOfMonteCarloIterations then
            iterationResult m ⟨common, override⟩ ux i
          else heap i)
      else none) ∧
    (common.isMonteCarloMode = true →
      (mainCompute m calculateMeanAndVarianceOfDoubleSamples ⟨common, override⟩ ux heap
          inputDistributions outputDistributions calibratedSensorOutput).calibratedSensorOutput =
        (calculateMeanAndVarianceOfDoubleSamples
          (some (fun i =>
            if i < common.numberOfMonteCarloIterations then
              iterationResult m ⟨common, override⟩ ux i
            else heap i))
          common.numberOfMonteCarloIterations).mean) := by
  have hloop := mainLoop_first_iterations m ⟨common, override⟩ ux
    ⟨inputDistributions, outputDistributions, calibratedSensorOutput,
      if common.isMonteCarloMode then some heap else none, []⟩
    common.numberOfMonteCarloIterations
  obtain ⟨hTrace, hSamples⟩ := hloop
  have hEvents : iterationEvents m ⟨common, override⟩ ux =
      fun i =>
        if common.isMonteCarloMode then
          [.setInputDistributions i,
            .calculateSensorOutput i (iterationResult m ⟨common, override⟩ ux i),
            .storeSample i (iterationResult m ⟨common, override⟩ ux i)]
        else
          [.setInputDistributions i,
            .calculateSensorOutput i (iterationResult m ⟨common, override⟩ ux i)] := by
    funext i
    simp [iterationEvents]
  rw [hEvents] at hTrace
  by_cases hmc : common.isMonteCarloMode = true
  · simp only [hmc, if_true, List.nil_append, Option.map_some] at hTrace hSamples
    refine ⟨?_, fun i =>
      (calculateSensorOutput_after_setInputDistributions m _ ux i _ _).symm, ?_, ?_⟩
    · simpa [mainCompute, mainLoop, hmc] using hTrace
    · simpa [mainCompute, mainLoop, hmc] using hSamples
    · intro _
      simp only [mainCompute, mainLoop, hmc, if_true]
      rw [hSamples]
      rfl
  · simp only [hmc, List.nil_append] at hTrace hSamples
    refine ⟨?_, fun i =>
      (calculateSensorOutput_after_setInputDistributions m _ ux i _ _).symm, ?_, ?_⟩
    · simpa [mainCompute, mainLoop, hmc] using hTrace
    · simpa [mainCompute, mainLoop, hmc] using hSamples
    · intro h
      exact absurd h hmc

/-- Witness of C10: three Monte Carlo iterations over the reals with the midpoint
distribution source and the arithmetic mean as reducer. -/
theorem main_loop_samples_then_evaluates_witness :
    (⟨false, false, false, true, false, false, false, false, false, 0, 3⟩ :
        CommonCommandLineArguments).isMonteCarloMode = true ∧
    (mainCompute (⟨fun x y => x ^ y, Real.log, Real.exp 1⟩ : MathLib ℝ)
        (fun samples n =>
          ⟨((List.range n).map (samples.getD (fun _ => 0))).sum / n, 0⟩)
        ⟨⟨false, false, false, true, false, false, false, false, false, 0, 3⟩, none⟩
        (fun _ => midpointSampler) (fun _ => 0) (fun _ => 0) (fun _ => 0)
        0).calibratedSensorOutput =
      ((List.range 3).map
          (fun i =>
            if i < 3 then
              iterationResult (⟨fun x y => x ^ y, Real.log, Real.exp 1⟩ : MathLib ℝ)
                ⟨⟨false, false, false, true, false, false, false, false, false, 0, 3⟩, none⟩
                (fun _ => midpointSampler) i
            else 0)).sum / (3 : Nat) :=
  ⟨rfl,
    (main_loop_samples_then_evaluates (⟨fun x y => x ^ y, Real.log, Real.exp 1⟩ : MathLib ℝ)
      (fun samples n => ⟨((List.range n).map (samples.getD (fun _ => 0))).sum / n, 0⟩)
      ⟨false, false, false, true, false, false, false, false, false, 0, 3⟩ none
      (fun _ => midpointSampler) (fun _ => 0) (fun _ => 0) (fun _ => 0) 0).2.2.2 rfl⟩

end Loop

section Arguments

/-- C7. The code does not reject a missing selection: for the successfully parsed
command line `-b` (benchmarking mode, no output selected) `getCommandLineArguments`
assigns the output index `0` instead of the print-all value
`kOutputDistributionIndexMax` and returns `kCommonConstantReturnTypeSuccess`, whereas
for `-b -S 1`, where the print-all value is selected, it returns
`kCommonConstantReturnTypeError` with the request to select a single output. -/
theorem getCommandLineArguments_accepts_missing_selection :
    benchmarkingWithoutSelection.returnValue = 0 ∧
    benchmarkingWithoutSelection.common.isOutputSelected = false ∧
    benchmarkingWithoutSelection.common.isBenchmarkingMode = true ∧
    getCommandLineArguments benchmarkingWithoutSelection parseDoubleCheckedNothing
        (some setDefaultCommandLineArguments) =
      .returned .kCommonConstantReturnTypeSuccess
        (some ⟨benchmarkingWithoutSelection.common, none⟩) [] ∧
    benchmarkingWithoutSelection.common.outputSelect =
      kOutputDistributionIndexCalibratedSensorOutput ∧
    getCommandLineArguments benchmarkingWithAllOutputs parseDoubleCheckedNothing
        (some setDefaultCommandLineArguments) =
      .returned .kCommonConstantReturnTypeError
        (some ⟨benchmarkingWithAllOutputs.common, none⟩) [.selectSingleOutput] := by
  decide

/-- The selection check as the code performs it. For every successfully parsed
argument set with help and input from file off and write-to-file and Monte Carlo mode
not both on, in benchmarking or Monte Carlo mode: if the output index `kOutputDistributionIndexMax` was selected, the
function returns `kCommonConstantReturnTypeError`; if no output was selected,
`outputSelect` is set to `0` and the function returns
`kCommonConstantReturnTypeSuccess` whenever the sensor parameter is absent or parses. -/
theorem getCommandLineArguments_selection_check {α : Type} (parsed : ParseArgsResult)
    (parseDoubleChecked : Option String → CommonConstantReturnType × Option α)
    (arguments : CommandLineArguments α)
    (hparsed : parsed.returnValue = 0)
    (hhelp : parsed.common.isHelpEnabled = false)
    (hfile : parsed.common.isInputFromFileEnabled = false)
    (hwrite : (parsed.common.isWriteToFileEnabled && parsed.common.isMonteCarloMode) = false)
    (hmode : (parsed.common.isBenchmarkingMode || parsed.common.isMonteCarloMode) = true) :
    (parsed.common.isOutputSelected = true →
      parsed.common.outputSelect = kOutputDistributionIndexMax →
      ∃ result stderr,
        getCommandLineArguments parsed parseDoubleChecked (some arguments) =
          .returned .kCommonConstantReturnTypeError result stderr) ∧
    (parsed.common.isOutputSelected = false →
      (parsed.sensorParameterArgFound = false ∨
        (parseDoubleChecked parsed.sensorParameterArg).1 =
          .kCommonConstantReturnTypeSuccess) →
      ∃ result stderr,
        getCommandLineArguments parsed parseDoubleChecked (some arguments) =
          .returned .kCommonConstantReturnTypeSuccess (some result) stderr ∧
        result.common.outputSelect = kOutputDistributionIndexCalibratedSensorOutput) := by
  constructor
  · intro hsel hmax
    simp only [getCommandLineArguments, hparsed, hhelp, hfile, hwrite, hsel, hmax, hmode,
      kOutputDistributionIndexMax]
    simp
  · intro hsel hsp
    simp only [getCommandLineArguments, hparsed, hhelp, hfile, hwrite, hsel,
      kOutputDistributionIndexMax, kOutputDistributionIndexCalibratedSensorOutput,
      getCommandLineArgumentsSensorParameter]
    rcases hsp with hsp | hsp
    · simp [hsp]
    · by_cases hfound : parsed.sensorParameterArgFound = true
      · simp [hfound, hsp]
      · simp [hfound]

/-- Witness of the selection check: `-b -S 1` is rejected. -/
theorem getCommandLineArguments_selection_check_witness :
    benchmarkingWithAllOutputs.returnValue = 0 ∧
    benchmarkingWithAllOutputs.common.isOutputSelected = true ∧
    benchmarkingWithAllOutputs.common.outputSelect = kOutputDistributionIndexMax ∧
    (benchmarkingWithAllOutputs.common.isBenchmarkingMode ||
      benchmarkingWithAllOutputs.common.isMonteCarloMode) = true ∧
    ∃ result stderr,
      getCommandLineArguments benchmarkingWithAllOutputs parseDoubleCheckedNothing
          (some setDefaultCommandLineArguments) =
        .returned .kCommonConstantReturnTypeError result stderr :=
  ⟨rfl, rfl, rfl, rfl,
    (getCommandLineArguments_selection_check benchmarkingWithAllOutputs
      parseDoubleCheckedNothing setDefaultCommandLineArguments rfl rfl rfl rfl rfl).1 rfl rfl⟩

/-- C8, as stated, fails: outside Monte Carlo mode with an iteration count of five
the size field is five, not one, while the values pointer is the single output
variable. -/
theorem printJSONFormattedOutput_size_not_one :
    fiveIterationsWithoutMonteCarloMode.common.isMonteCarloMode = false ∧
    (printJSONFormattedOutput 256 fiveIterationsWithoutMonteCarloMode "outputVariable"
        "monteCarloOutputSamples" "Calibrated FLIR Ax5 Temperature Output").map
      (fun jsonVariable => (jsonVariable.values, jsonVariable.size)) = [("outputVariable", 5)] := by
  decide

/-- C8, amended. The JSON variable built by `printJSONFormattedOutput` is a single
one; its size field equals `numberOfMonteCarloIterations` in both modes, so outside
Monte Carlo mode it is one exactly when `numberOfMonteCarloIterations` is one; its
values pointer is `monteCarloOutputSamples` in Monte Carlo mode and `outputVariable`
otherwise. -/
theorem printJSONFormattedOutput_size {α P : Type} (maxChars : Nat)
    (arguments : CommandLineArguments α) (outputVariable monteCarloOutputSamples : P)
    (variableDescription : String) :
    ∃ jsonVariable,
      printJSONFormattedOutput maxChars arguments outputVariable monteCarloOutputSamples
          variableDescription = [jsonVariable] ∧
      jsonVariable.size = arguments.common.numberOfMonteCarloIterations ∧
      (jsonVariable.size = 1 ↔ arguments.common.numberOfMonteCarloIterations = 1) ∧
      jsonVariable.values =
        (if arguments.common.isMonteCarloMode then monteCarloOutputSamples
        else outputVariable) :=
  ⟨_, rfl, rfl, Iff.rfl, rfl⟩

end Arguments

section Probabilities

/-- The query `rampProbabilityGT` has values in `[0, 1]`. -/
theorem rampProbabilityGT_range (value threshold : ℝ) :
    0 ≤ rampProbabilityGT value threshold ∧ rampProbabilityGT value threshold ≤ 1 := by
  unfold rampProbabilityGT
  split_ifs <;> constructor <;> linarith

/-- The query `rampProbabilityGT` is non-increasing in the threshold. -/
theorem rampProbabilityGT_antitone (value t1 t2 : ℝ) (h : t1 ≤ t2) :
    rampProbabilityGT value t2 ≤ rampProbabilityGT value t1 := by
  unfold rampProbabilityGT
  split_ifs <;> linarith

/-- C9, as stated, fails: for the positive value `100` and the query
`rampProbabilityGT`, which has values in `[0, 1]` and is non-increasing in the
threshold, the printed probability of `1% or more greater` exceeds that of
`2% or more greater`, and the printed probability of `1% or more smaller` exceeds
that of `2% or more smaller`. -/
theorem printCalibratedValueAndProbabilities_not_increasing :
    (0 : ℝ) < 100 ∧
    (∀ value threshold : ℝ,
      0 ≤ rampProbabilityGT value threshold ∧ rampProbabilityGT value threshold ≤ 1) ∧
    (∀ value t1 t2 : ℝ, t1 ≤ t2 →
      rampProbabilityGT value t2 ≤ rampProbabilityGT value t1) ∧
    ¬ ((printCalibratedValueAndProbabilities rampProbabilityGT (100 : ℝ)).greater1 ≤
        (printCalibratedValueAndProbabilities rampProbabilityGT (100 : ℝ)).greater2) ∧
    ¬ ((printCalibratedValueAndProbabilities rampProbabilityGT (100 : ℝ)).smaller1 ≤
        (printCalibratedValueAndProbabilities rampProbabilityGT (100 : ℝ)).smaller2) := by
  refine ⟨by norm_num, rampProbabilityGT_range, rampProbabilityGT_antitone, ?_, ?_⟩
  · simp only [printCalibratedValueAndProbabilities, rampProbabilityGT]
    norm_num
  · simp only [printCalibratedValueAndProbabilities, rampProbabilityGT]
    norm_num

/-- C9, amended. For every positive calibrated value `v` and every tail-probability
query with values in `[0, 1]` that is non-increasing in the threshold, the printed
probabilities satisfy `P(≥ +1%) ≥ P(≥ +2%) ≥ P(≥ +5%)` and, on the smaller side,
`(1 - P(v, 0.99 v)) ≥ (1 - P(v, 0.98 v)) ≥ (1 - P(v, 0.95 v))`. -/
theorem printCalibratedValueAndProbabilities_antitone (probabilityGT : ℝ → ℝ → ℝ) (v : ℝ)
    (hv : 0 < v)
    (_hrange : ∀ value threshold, 0 ≤ probabilityGT value threshold ∧
      probabilityGT value threshold ≤ 1)
    (hmono : ∀ value t1 t2, t1 ≤ t2 → probabilityGT value t2 ≤ probabilityGT value t1) :
    (printCalibratedValueAndProbabilities probabilityGT v).greater5 ≤
        (printCalibratedValueAndProbabilities probabilityGT v).greater2 ∧
    (printCalibratedValueAndProbabilities probabilityGT v).greater2 ≤
        (printCalibratedValueAndProbabilities probabilityGT v).greater1 ∧
    (printCalibratedValueAndProbabilities probabilityGT v).smaller5 ≤
        (printCalibratedValueAndProbabilities probabilityGT v).smaller2 ∧
    (printCalibratedValueAndProbabilities probabilityGT v).smaller2 ≤
        (printCalibratedValueAndProbabilities probabilityGT v).smaller1 ∧
    (printCalibratedValueAndProbabilities probabilityGT v).greater1 =
        probabilityGT v (1.01 * v) ∧
    (printCalibratedValueAndProbabilities probabilityGT v).smaller1 =
        1 - probabilityGT v (0.99 * v) := by
  refine ⟨hmono _ _ _ (by nlinarith), hmono _ _ _ (by nlinarith), ?_, ?_, rfl, ?_⟩
  · have h := hmono v (v * (1 - 0.05)) (v * (1 - 0.02)) (by nlinarith)
    simp only [printCalibratedValueAndProbabilities]
    linarith
  · have h := hmono v (v * (1 - 0.02)) (v * (1 - 0.01)) (by nlinarith)
    simp only [printCalibratedValueAndProbabilities]
    linarith
  · have h : v * (1 - 0.01) = 0.99 * v := by ring
    simp only [printCalibratedValueAndProbabilities, h]

/-- Witness of the amended C9 at the value `100` and the query `rampProbabilityGT`. -/
theorem printCalibratedValueAndProbabilities_antitone_witness :
    (0 : ℝ) < 100 ∧
    (printCalibratedValueAndProbabilities rampProbabilityGT (100 : ℝ)).greater5 ≤
        (printCalibratedValueAndProbabilities rampProbabilityGT (100 : ℝ)).greater2 ∧
    (printCalibratedValueAndProbabilities rampProbabilityGT (100 : ℝ)).greater2 ≤
        (printCalibratedValueAndProbabilities rampProbabilityGT (100 : ℝ)).greater1 ∧
    (printCalibratedValueAndProbabilities rampProbabilityGT (100 : ℝ)).smaller5 ≤
        (printCalibratedValueAndProbabilities rampProbabilityGT (100 : ℝ)).smaller2 ∧
    (printCalibratedValueAndProbabilities rampProbabilityGT (100 : ℝ)).smaller2 ≤
        (printCalibratedValueAndProbabilities rampProbabilityGT (100 : ℝ)).smaller1 ∧
    (printCalibratedValueAndProbabilities rampProbabilityGT (100 : ℝ)).greater1 =
        rampProbabilityGT 100 (1.01 * 100) ∧
    (printCalibratedValueAndProbabilities rampProbabilityGT (100 : ℝ)).smaller1 =
        1 - rampProbabilityGT 100 (0.99 * 100) :=
  ⟨by norm_num,
    printCalibratedValueAndProbabilities_antitone rampProbabilityGT 100 (by norm_num)
      rampProbabilityGT_range rampProbabilityGT_antitone⟩

end Probabilities

section WellDefined

/-- A bounded ratio times a quotient with a denominator bounded below is bounded. -/
theorem abs_ratio_mul_quotient_le (n d E a d0 R E0 : ℝ) (hn : |n| ≤ a) (hd0 : 0 < d0)
    (hd : d0 ≤ d) (hE0 : 0 < E0) (hE : E0 ≤ E) (hR : 0 ≤ R) :
    |(n / d) * (R / E)| ≤ (a / d0) * (R / E0) := by
  have ha : 0 ≤ a := le_trans (abs_nonneg n) hn
  have hdpos : 0 < d := lt_of_lt_of_le hd0 hd
  have hEpos : 0 < E := lt_of_lt_of_le hE0 hE
  rw [abs_mul, abs_div, abs_div, abs_of_pos hdpos, abs_of_pos hEpos, abs_of_nonneg hR]
  apply mul_le_mul
  · exact div_le_div₀ ha hn hd0 hd
  · exact div_le_div₀ hR le_rfl hE0 hE
  · positivity
  · positivity

/-- Bounds of a product of two factors in `[0.95, 1.05]`. -/
theorem mul_mem_of_unit_tolerance (a b : ℝ) (ha : 0.95 ≤ a ∧ a ≤ 1.05)
    (hb : 0.95 ≤ b ∧ b ≤ 1.05) : 0.9025 ≤ a * b ∧ a * b ≤ 1.1025 := by
  constructor <;> nlinarith [ha.1, ha.2, hb.1, hb.2]

/-- Bounds of a product of three factors in `[0.95, 1.05]`. -/
theorem mul_mul_mem_of_unit_tolerance (a b c : ℝ) (ha : 0.95 ≤ a ∧ a ≤ 1.05)
    (hb : 0.95 ≤ b ∧ b ≤ 1.05) (hc : 0.95 ≤ c ∧ c ≤ 1.05) :
    0.857375 ≤ a * b * c ∧ a * b * c ≤ 1.157625 := by
  have hab := mul_mem_of_unit_tolerance a b ha hb
  constructor <;> nlinarith [hab.1, hab.2, hc.1, hc.2]

/-- The exponential minus a factor of at most `1.05` is at least the exponent minus `0.05`. -/
theorem exp_sub_lower (x x0 F : ℝ) (hx : x0 ≤ x) (hF : F ≤ 1.05) :
    x0 - 0.05 ≤ Real.exp x - F := by
  have h := Real.add_one_le_exp x
  linarith only [h, hx, hF]

/-- Bounds of `K1 * signal - K2` when every factor lies in its configured range and
the three exponential terms are bounded below. -/
theorem radiance_difference_bounds
    (tK eK xK n1 d1 E1 n2 d2 E2 n3 d3 E3 J0 J1 c : ℝ)
    (htK : 0.95 ≤ tK ∧ tK ≤ 1.05) (heK : 0.95 ≤ eK ∧ eK ≤ 1.05)
    (hxK : 0.95 ≤ xK ∧ xK ≤ 1.05)
    (hn1 : |n1| ≤ 0.05) (hd1 : 0.95 ≤ d1) (hE1 : 64 ≤ E1)
    (hn2 : |n2| ≤ 0.05) (hd2 : 0.9025 ≤ d2) (hE2 : 4.79 ≤ E2)
    (hn3 : |n3| ≤ 0.05) (hd3 : 0.857375 ≤ d3) (hE3 : 71 ≤ E3)
    (hJ0 : 89.7955 ≤ J0 ∧ J0 ≤ 89.7965) (hJ1 : 22.59155 ≤ J1 ∧ J1 ≤ 22.59165)
    (hc : 30000 ≤ c ∧ c ≤ 30100) :
    917 ≤ 1 / (tK * eK * xK) * ((c - J0) / J1) -
        ((n1 / d1) * (16556 / E1) + (n2 / d2) * (16556 / E2) + (n3 / d3) * (16556 / E3)) ∧
    1 / (tK * eK * xK) * ((c - J0) / J1) -
        ((n1 / d1) * (16556 / E1) + (n2 / d2) * (16556 / E2) + (n3 / d3) * (16556 / E3)) ≤
      1775 := by
  have hP := mul_mul_mem_of_unit_tolerance tK eK xK htK heK hxK
  have hPpos : 0 < tK * eK * xK := by linarith only [hP.1]
  have hK1lo : 0.86 ≤ 1 / (tK * eK * xK) := by
    rw [le_div_iff₀ hPpos]; linarith only [hP.2]
  have hK1hi : 1 / (tK * eK * xK) ≤ 1.17 := by
    rw [div_le_iff₀ hPpos]; linarith only [hP.1]
  have hJ1pos : 0 < J1 := by linarith only [hJ1.1]
  have hSlo : 1323 ≤ (c - J0) / J1 := by
    rw [le_div_iff₀ hJ1pos]; linarith only [hJ1.2, hc.1, hJ0.2]
  have hShi : (c - J0) / J1 ≤ 1329 := by
    rw [div_le_iff₀ hJ1pos]; linarith only [hJ1.1, hc.2, hJ0.1]
  have hKSlo : 1137 ≤ 1 / (tK * eK * xK) * ((c - J0) / J1) := by
    have h := mul_le_mul hK1lo hSlo (by norm_num) (by linarith only [hK1lo])
    linarith only [h]
  have hKShi : 1 / (tK * eK * xK) * ((c - J0) / J1) ≤ 1555 := by
    have h := mul_le_mul hK1hi hShi (by linarith only [hSlo]) (by norm_num)
    linarith only [h]
  have h1 := abs_ratio_mul_quotient_le n1 d1 E1 0.05 0.95 16556 64 hn1 (by norm_num) hd1
    (by norm_num) hE1 (by norm_num)
  have h2 := abs_ratio_mul_quotient_le n2 d2 E2 0.05 0.9025 16556 4.79 hn2 (by norm_num) hd2
    (by norm_num) hE2 (by norm_num)
  have h3 := abs_ratio_mul_quotient_le n3 d3 E3 0.05 0.857375 16556 71 hn3 (by norm_num) hd3
    (by norm_num) hE3 (by norm_num)
  have h1b : (0.05 / 0.95 : ℝ) * (16556 / 64) ≤ 14 := by norm_num
  have h2b : (0.05 / 0.9025 : ℝ) * (16556 / 4.79) ≤ 192 := by norm_num
  have h3b : (0.05 / 0.857375 : ℝ) * (16556 / 71) ≤ 14 := by norm_num
  have a1 := abs_le.mp (le_trans h1 h1b)
  have a2 := abs_le.mp (le_trans h2 h2b)
  have a3 := abs_le.mp (le_trans h3 h3b)
  constructor <;>
    linarith only [hKSlo, hKShi, a1.1, a1.2, a2.1, a2.2, a3.1, a3.2]


/-- For `K1 * signal - K2` in `[917, 1775]` the argument of the logarithm exceeds one. -/
theorem log_argument_gt_one (D F : ℝ) (hD : 917 ≤ D ∧ D ≤ 1775) (hF : 0.95 ≤ F) :
    D ≠ 0 ∧ 1 < 16556 / D + F ∧ 0 < Real.log (16556 / D + F) := by
  have hDpos : 0 < D := by linarith only [hD.1]
  have hQ : 9 ≤ 16556 / D := by
    rw [le_div_iff₀ hDpos]
    linarith only [hD.2]
  have hArg : 1 < 16556 / D + F := by linarith only [hQ, hF]
  exact ⟨ne_of_gt hDpos, hArg, Real.log_pos hArg⟩

/-- The bounds `(1.0 - 0.05, 1.0 + 0.05)` are `[0.95, 1.05]`. -/
theorem unit_tolerance_mem (x : ℝ) (h : 1.0 - 0.05 ≤ x ∧ x ≤ 1.0 + 0.05) :
    0.95 ≤ x ∧ x ≤ 1.05 := by
  constructor <;> linarith only [h.1, h.2]

/-- The bounds `(21.85 - 0.005, 21.85 + 0.005)` are `[21.845, 21.855]`. -/
theorem temperature_celsius_mem (x : ℝ) (h : 21.85 - 0.005 ≤ x ∧ x ≤ 21.85 + 0.005) :
    21.845 ≤ x ∧ x ≤ 21.855 := by
  constructor <;> linarith only [h.1, h.2]

/-- The lower bound of `B` is `1427.95`. -/
theorem calibration_B_lower (x : ℝ) (h : 1428.0 - 0.05 ≤ x ∧ x ≤ 1428.0 + 0.05) :
    1427.95 ≤ x := by
  linarith only [h.1]

/-- The bounds of `J1` are `[22.59155, 22.59165]`. -/
theorem calibration_J1_mem (x : ℝ) (h : 22.5916 - 0.00005 ≤ x ∧ x ≤ 22.5916 + 0.00005) :
    22.59155 ≤ x ∧ x ≤ 22.59165 := by
  constructor <;> linarith only [h.1, h.2]

/-- The bounds of `J0` are `[89.7955, 89.7965]`. -/
theorem calibration_J0_mem (x : ℝ) (h : 89.796 - 0.0005 ≤ x ∧ x ≤ 89.796 + 0.0005) :
    89.7955 ≤ x ∧ x ≤ 89.7965 := by
  constructor <;> linarith only [h.1, h.2]

/-- A factor in `[0.95, 1.05]` differs from one by at most `0.05`. -/
theorem abs_one_sub_le (x : ℝ) (h : 0.95 ≤ x ∧ x ≤ 1.05) : |1 - x| ≤ 0.05 := by
  rw [abs_le]
  constructor <;> linarith only [h.1, h.2]

/-- The divisor `e^(B/TRefl) - F` of `r1`, with `TRefl` in its Celsius range. -/
theorem exponential_term_reflected (B T F : ℝ) (hB : 1427.95 ≤ B)
    (hT : 21.845 ≤ T ∧ T ≤ 21.855) (hF : F ≤ 1.05) :
    T ≠ 0 ∧ 64 ≤ Real.exp 1 ^ (B / T) - F := by
  have hTpos : 0 < T := by linarith only [hT.1]
  have hx : 65 ≤ B / T := by
    rw [le_div_iff₀ hTpos]; linarith only [hB, hT.2]
  have h := exp_sub_lower _ _ F hx hF
  rw [Real.exp_one_rpow]
  exact ⟨ne_of_gt hTpos, by linarith only [h]⟩

/-- The divisor `e^(B/TAtm) - F` of `r2`, with `TAtm` the Celsius draw plus `273.15`. -/
theorem exponential_term_atmosphere (B T F : ℝ) (hB : 1427.95 ≤ B)
    (hT : 21.845 ≤ T ∧ T ≤ 21.855) (hF : F ≤ 1.05) :
    T + 273.15 ≠ 0 ∧ 4.79 ≤ Real.exp 1 ^ (B / (T + 273.15)) - F := by
  have hTpos : 0 < T + 273.15 := by linarith only [hT.1]
  have hx : 4.84 ≤ B / (T + 273.15) := by
    rw [le_div_iff₀ hTpos]; linarith only [hB, hT.2]
  have h := exp_sub_lower _ _ F hx hF
  rw [Real.exp_one_rpow]
  exact ⟨ne_of_gt hTpos, by linarith only [h]⟩

/-- The divisor `e^(B/TExtOptics) - F` of `r3`, with `TExtOptics = 20`. -/
theorem exponential_term_optics (B F : ℝ) (hB : 1427.95 ≤ B) (hF : F ≤ 1.05) :
    71 ≤ Real.exp 1 ^ (B / 20) - F := by
  have hx : 71.39 ≤ B / 20 := by
    rw [le_div_iff₀ (by norm_num)]; linarith only [hB]
  have h := exp_sub_lower _ _ F hx hF
  rw [Real.exp_one_rpow]
  linarith only [h]

/-- A real number above a positive bound is not zero. -/
theorem ne_zero_of_le (a x : ℝ) (ha : 0 < a) (h : a ≤ x) : x ≠ 0 :=
  ne_of_gt (lt_of_lt_of_le ha h)

/-- C11. For every distribution source that respects its bounds, also when separate
occurrences of one parameter take different values, and `counts` in `[30000, 30100]`,
every divisor in `calculateSensorOutput` is non-zero (the products of emissivity and
transmissions, the three temperatures, each `e^(B/T) - F`, `J1`, `K1*signal - K2`),
the argument `R/(K1*signal - K2) + F` of the logarithm is greater than one, the
logarithm is positive, and the result is `B` divided by that logarithm minus
`273.15`. -/
theorem calculateSensorOutput_well_defined (arguments : CommandLineArguments ℝ)
    (ux : Sampler ℝ) (inputDistributions : Nat → ℝ)
    (hux : ∀ s lo hi, lo ≤ hi → lo ≤ ux s lo hi ∧ ux s lo hi ≤ hi)
    (hcounts :
      30000 ≤ arguments.countValueReadFromArgvToOverrideDefaultDistribution.getD
          (inputDistributions kInputDistributionIndexSensorCounts) ∧
        arguments.countValueReadFromArgvToOverrideDefaultDistribution.getD
          (inputDistributions kInputDistributionIndexSensorCounts) ≤ 30100) :
    kFLIRatmosphericAttenuationParameterTau ux .K1_Tau *
        kFLIRobjectParameterEmiss ux .K1_Emiss *
        kFLIRexternalOpticsParameterTransmissionExtOptics ux .K1_TransmissionExtOptics ≠ 0 ∧
    kFLIRobjectParameterEmiss ux .r1_EmissDenominator ≠ 0 ∧
    kFLIRobjectParameterEmiss ux .r2_Emiss *
        kFLIRatmosphericAttenuationParameterTau ux .r2_TauDenominator ≠ 0 ∧
    kFLIRobjectParameterEmiss ux .r3_Emiss * kFLIRatmosphericAttenuationParameterTau ux .r3_Tau *
        kFLIRexternalOpticsParameterTransmissionExtOptics ux
          .r3_TransmissionExtOpticsDenominator ≠ 0 ∧
    kFLIRobjectParameterTRefl ux .r1_TRefl ≠ 0 ∧
    kFLIRatmosphericAttenuationParameterTAtm ux .r2_TAtmC ≠ 0 ∧
    (kFLIRexternalOpticsParameterTExtOptics : ℝ) ≠ 0 ∧
    Real.exp 1 ^ (kFLIRcameraAx5CalibrationParameterB ux .r1_B /
        kFLIRobjectParameterTRefl ux .r1_TRefl) -
      kFLIRcameraAx5CalibrationParameterF ux .r1_F ≠ 0 ∧
    Real.exp 1 ^ (kFLIRcameraAx5CalibrationParameterB ux .r2_B /
        kFLIRatmosphericAttenuationParameterTAtm ux .r2_TAtmC) -
      kFLIRcameraAx5CalibrationParameterF ux .r2_F ≠ 0 ∧
    Real.exp 1 ^ (kFLIRcameraAx5CalibrationParameterB ux .r3_B /
        kFLIRexternalOpticsParameterTExtOptics) -
      kFLIRcameraAx5CalibrationParameterF ux .r3_F ≠ 0 ∧
    kFLIRcameraAx5CalibrationParameterJ1 ux .signal_J1 ≠ 0 ∧
    (calculateSensorOutputLocals ⟨fun x y => x ^ y, Real.log, Real.exp 1⟩ arguments ux
          inputDistributions).K1 *
        (calculateSensorOutputLocals ⟨fun x y => x ^ y, Real.log, Real.exp 1⟩ arguments ux
          inputDistributions).signal -
      (calculateSensorOutputLocals ⟨fun x y => x ^ y, Real.log, Real.exp 1⟩ arguments ux
          inputDistributions).K2 ≠ 0 ∧
    1 < kFLIRcameraAx5CalibrationParameterR /
          ((calculateSensorOutputLocals ⟨fun x y => x ^ y, Real.log, Real.exp 1⟩ arguments ux
                inputDistributions).K1 *
              (calculateSensorOutputLocals ⟨fun x y => x ^ y, Real.log, Real.exp 1⟩ arguments ux
                inputDistributions).signal -
            (calculateSensorOutputLocals ⟨fun x y => x ^ y, Real.log, Real.exp 1⟩ arguments ux
                inputDistributions).K2) +
        kFLIRcameraAx5CalibrationParameterF ux .calibratedValue_F ∧
    0 < Real.log
        (kFLIRcameraAx5CalibrationParameterR /
            ((calculateSensorOutputLocals ⟨fun x y => x ^ y, Real.log, Real.exp 1⟩ arguments ux
                  inputDistributions).K1 *
                (calculateSensorOutputLocals ⟨fun x y => x ^ y, Real.log, Real.exp 1⟩ arguments
                  ux inputDistributions).signal -
              (calculateSensorOutputLocals ⟨fun x y => x ^ y, Real.log, Real.exp 1⟩ arguments ux
                  inputDistributions).K2) +
          kFLIRcameraAx5CalibrationParameterF ux .calibratedValue_F) ∧
    (calculateSensorOutputLocals ⟨fun x y => x ^ y, Real.log, Real.exp 1⟩ arguments ux
        inputDistributions).calibratedValue =
      kFLIRcameraAx5CalibrationParameterB ux .calibratedValue_B /
          Real.log
            (kFLIRcameraAx5CalibrationParameterR /
                ((calculateSensorOutputLocals ⟨fun x y => x ^ y, Real.log, Real.exp 1⟩ arguments
                      ux inputDistributions).K1 *
                    (calculateSensorOutputLocals ⟨fun x y => x ^ y, Real.log, Real.exp 1⟩
                      arguments ux inputDistributions).signal -
                  (calculateSensorOutputLocals ⟨fun x y => x ^ y, Real.log, Real.exp 1⟩ arguments
                      ux inputDistributions).K2) +
              kFLIRcameraAx5CalibrationParameterF ux .calibratedValue_F) -
        kAbsoluteZeroKelvinInCelsius := by
  have unit : ∀ s, 0.95 ≤ ux s (1.0 - 0.05) (1.0 + 0.05) ∧
      ux s (1.0 - 0.05) (1.0 + 0.05) ≤ 1.05 :=
    fun s => unit_tolerance_mem _ (hux s _ _ (by norm_num))
  have hB : ∀ s, 1427.95 ≤ ux s (1428.0 - 0.05) (1428.0 + 0.05) :=
    fun s => calibration_B_lower _ (hux s _ _ (by norm_num))
  have hT : ∀ s, 21.845 ≤ ux s (21.85 - 0.005) (21.85 + 0.005) ∧
      ux s (21.85 - 0.005) (21.85 + 0.005) ≤ 21.855 :=
    fun s => temperature_celsius_mem _ (hux s _ _ (by norm_num))
  have hJ1 := calibration_J1_mem _ (hux .signal_J1 (22.5916 - 0.00005) (22.5916 + 0.00005)
    (by norm_num))
  have hJ0 := calibration_J0_mem _ (hux .signal_J0 (89.796 - 0.0005) (89.796 + 0.0005)
    (by norm_num))
  have hcountsEq :
      (calculateSensorOutputLocals ⟨fun x y => x ^ y, Real.log, Real.exp 1⟩ arguments ux
        inputDistributions).counts =
      arguments.countValueReadFromArgvToOverrideDefaultDistribution.getD
        (inputDistributions kInputDistributionIndexSensorCounts) := by
    cases h : arguments.countValueReadFromArgvToOverrideDefaultDistribution <;>
      simp [calculateSensorOutputLocals, h]
  rw [← hcountsEq] at hcounts
  have hE1 := exponential_term_reflected _ _ _ (hB .r1_B) (hT .r1_TRefl) (unit .r1_F).2
  have hE2 := exponential_term_atmosphere _ _ _ (hB .r2_B) (hT .r2_TAtmC) (unit .r2_F).2
  have hE3 := exponential_term_optics _ _ (hB .r3_B) (unit .r3_F).2
  have hP := mul_mul_mem_of_unit_tolerance _ _ _ (unit .K1_Tau) (unit .K1_Emiss)
    (unit .K1_TransmissionExtOptics)
  have hd2 := mul_mem_of_unit_tolerance _ _ (unit .r2_Emiss) (unit .r2_TauDenominator)
  have hd3 := mul_mul_mem_of_unit_tolerance _ _ _ (unit .r3_Emiss) (unit .r3_Tau)
    (unit .r3_TransmissionExtOpticsDenominator)
  have hD := radiance_difference_bounds _ _ _ _ _ _ _ _ _ _ _ _ _ _ _
    (unit .K1_Tau) (unit .K1_Emiss) (unit .K1_TransmissionExtOptics)
    (abs_one_sub_le _ (unit .r1_EmissNumerator)) (unit .r1_EmissDenominator).1 hE1.2
    (abs_one_sub_le _ (unit .r2_TauNumerator)) hd2.1 hE2.2
    (abs_one_sub_le _ (unit .r3_TransmissionExtOpticsNumerator)) hd3.1 hE3
    hJ0 hJ1 hcounts
  have hLog := log_argument_gt_one _ (ux .calibratedValue_F (1.0 - 0.05) (1.0 + 0.05))
    hD (unit .calibratedValue_F).1
  exact ⟨ne_zero_of_le _ _ (by norm_num) hP.1,
    ne_zero_of_le _ _ (by norm_num) (unit .r1_EmissDenominator).1,
    ne_zero_of_le _ _ (by norm_num) hd2.1,
    ne_zero_of_le _ _ (by norm_num) hd3.1,
    hE1.1, hE2.1, by norm_num [kFLIRexternalOpticsParameterTExtOptics],
    ne_zero_of_le _ _ (by norm_num) hE1.2,
    ne_zero_of_le _ _ (by norm_num) hE2.2,
    ne_zero_of_le _ _ (by norm_num) hE3,
    ne_zero_of_le _ _ (by norm_num) hJ1.1,
    hLog.1, hLog.2.1, hLog.2.2, rfl⟩

/-- The distribution source `midpointSampler` respects its bounds. -/
theorem midpointSampler_mem (s : DrawSite) (lo hi : ℝ) (h : lo ≤ hi) :
    lo ≤ midpointSampler s lo hi ∧ midpointSampler s lo hi ≤ hi := by
  constructor <;> simp only [midpointSampler] <;> linarith only [h]

/-- Witness of C11 at the midpoint distribution source with `counts = 30050`. -/
theorem calculateSensorOutput_well_defined_witness :
    (∀ s lo hi, lo ≤ hi →
        lo ≤ (midpointSampler : Sampler ℝ) s lo hi ∧
          (midpointSampler : Sampler ℝ) s lo hi ≤ hi) ∧
    (30000 ≤ (setDefaultCommandLineArguments :
          CommandLineArguments ℝ).countValueReadFromArgvToOverrideDefaultDistribution.getD
        ((fun _ => 30050 : Nat → ℝ) kInputDistributionIndexSensorCounts) ∧
      (setDefaultCommandLineArguments :
          CommandLineArguments ℝ).countValueReadFromArgvToOverrideDefaultDistribution.getD
        ((fun _ => 30050 : Nat → ℝ) kInputDistributionIndexSensorCounts) ≤ 30100) ∧
    kFLIRatmosphericAttenuationParameterTau (midpointSampler : Sampler ℝ) .K1_Tau *
        kFLIRobjectParameterEmiss midpointSampler .K1_Emiss *
        kFLIRexternalOpticsParameterTransmissionExtOptics midpointSampler
          .K1_TransmissionExtOptics ≠ 0 :=
  have hcounts :
      30000 ≤ (setDefaultCommandLineArguments :
            CommandLineArguments ℝ).countValueReadFromArgvToOverrideDefaultDistribution.getD
          ((fun _ => 30050 : Nat → ℝ) kInputDistributionIndexSensorCounts) ∧
        (setDefaultCommandLineArguments :
            CommandLineArguments ℝ).countValueReadFromArgvToOverrideDefaultDistribution.getD
          ((fun _ => 30050 : Nat → ℝ) kInputDistributionIndexSensorCounts) ≤ 30100 := by
    constructor <;> norm_num [setDefaultCommandLineArguments]
  ⟨midpointSampler_mem, hcounts,
    (calculateSensorOutput_well_defined setDefaultCommandLineArguments midpointSampler
      (fun _ => 30050) midpointSampler_mem hcounts).1⟩

end WellDefined

section Selection

/-- C12. An out-of-range output selection is diagnosed but not rejected: for every
successfully parsed argument set with `outputSelect > kOutputDistributionIndexMax`,
help and input from file off, write-to-file and Monte Carlo mode not both on, and
the sensor parameter absent or parsing, `getCommandLineArguments` writes the
out-of-range diagnostic, returns `kCommonConstantReturnTypeSuccess` and leaves the
common arguments, `outputSelect` included, unchanged, whatever the benchmarking and
Monte Carlo flags. The parser is taken to leave `outputSelect` at its zero default
unless it records a selection. -/
theorem getCommandLineArguments_out_of_range_selection {α : Type} (parsed : ParseArgsResult)
    (parseDoubleChecked : Option String → CommonConstantReturnType × Option α)
    (arguments : CommandLineArguments α)
    (hparsed : parsed.returnValue = 0)
    (hdefault : parsed.common.isOutputSelected = false → parsed.common.outputSelect = 0)
    (hmax : kOutputDistributionIndexMax < parsed.common.outputSelect)
    (hhelp : parsed.common.isHelpEnabled = false)
    (hfile : parsed.common.isInputFromFileEnabled = false)
    (hwrite : (parsed.common.isWriteToFileEnabled && parsed.common.isMonteCarloMode) = false)
    (hsp : parsed.sensorParameterArgFound = false ∨
      (parseDoubleChecked parsed.sensorParameterArg).1 = .kCommonConstantReturnTypeSuccess) :
    ∃ result stderr,
      getCommandLineArguments parsed parseDoubleChecked (some arguments) =
        .returned .kCommonConstantReturnTypeSuccess (some result) stderr ∧
      result.common = parsed.common ∧
      result.common.outputSelect = parsed.common.outputSelect ∧
      Diagnostic.outputSelectGreaterThanMax parsed.common.outputSelect
        kOutputDistributionIndexMax ∈ stderr := by
  have hsel : parsed.common.isOutputSelected = true := by
    cases h : parsed.common.isOutputSelected
    · have h0 := hdefault h
      rw [h0] at hmax
      exact absurd hmax (Nat.not_lt_zero _)
    · rfl
  obtain ⟨ret, ⟨help, file, write, mc, verbose, selected, bench, timing, json, select, n⟩,
    arg, found⟩ := parsed
  simp only at hparsed hmax hhelp hfile hwrite hsel hsp
  subst hparsed hhelp hfile hsel
  have hgt : select > kOutputDistributionIndexMax := hmax
  simp only [getCommandLineArguments, getCommandLineArgumentsSensorParameter, hwrite]
  simp only [ne_eq, not_true_eq_false, if_false, Bool.false_eq_true, Bool.not_true, if_pos hgt]
  rcases hsp with hsp | hsp
  · subst hsp
    exact ⟨_, _, rfl, rfl, rfl, by simp⟩
  · cases found
    · exact ⟨_, _, rfl, rfl, rfl, by simp⟩
    · simp only [if_true, hsp, ne_eq, not_true_eq_false, if_false]
      exact ⟨_, _, rfl, rfl, rfl, by simp⟩

/-- Witness of C12: `-M 10 -S 7` is diagnosed and accepted. -/
theorem getCommandLineArguments_out_of_range_selection_witness :
    monteCarloWithOutOfRangeSelection.returnValue = 0 ∧
    kOutputDistributionIndexMax < monteCarloWithOutOfRangeSelection.common.outputSelect ∧
    monteCarloWithOutOfRangeSelection.common.isMonteCarloMode = true ∧
    ∃ result stderr,
      getCommandLineArguments monteCarloWithOutOfRangeSelection parseDoubleCheckedNothing
          (some setDefaultCommandLineArguments) =
        .returned .kCommonConstantReturnTypeSuccess (some result) stderr ∧
      result.common = monteCarloWithOutOfRangeSelection.common ∧
      result.common.outputSelect = monteCarloWithOutOfRangeSelection.common.outputSelect ∧
      Diagnostic.outputSelectGreaterThanMax
        monteCarloWithOutOfRangeSelection.common.outputSelect
        kOutputDistributionIndexMax ∈ stderr :=
  ⟨rfl, by decide, rfl,
    getCommandLineArguments_out_of_range_selection monteCarloWithOutOfRangeSelection
      parseDoubleCheckedNothing setDefaultCommandLineArguments rfl (by decide) (by decide)
      rfl rfl rfl (Or.inl rfl)⟩

end Selection

end FLIRAx5
